import Mathlib

/-!
Shallow embedding of the eclipse-simulation core (`simulation.js`) over the
real numbers, together with proofs of the specification claims about it.

JavaScript floating-point numbers are modelled as `ℝ`; `Math.sin`, `Math.cos`,
`Math.asin`, `Math.acos` and `Math.sqrt` become `Real.sin`, `Real.cos`,
`Real.arcsin`, `Real.arccos` and `Real.sqrt`.  The JavaScript remainder
operator `%` truncates toward zero, which is modelled by `jsMod` below.
Fallible results (`null` in the source) become `Option`.
-/

noncomputable section

open Real

/-! ## Constants (verbatim from the source header) -/

def DEG : ℝ := Real.pi / 180

def RAD : ℝ := 180 / Real.pi

def AU_KM : ℝ := 149597870.7

def EARTH_RADIUS_KM : ℝ := 6371.0

def SUN_RADIUS_KM : ℝ := 695700.0

def MOON_RADIUS_KM : ℝ := 1737.4

def MOON_PERIGEE_KM : ℝ := 363300

def MOON_APOGEE_KM : ℝ := 405500

def LUNAR_INCLINATION_DEG : ℝ := 5.145

def EARTH_ROT_DEG_PER_HOUR : ℝ := 15.041067

def SUN_ECLIPTIC_DEG_PER_HOUR : ℝ := 360 / (365.2422 * 24)

def MOON_ECLIPTIC_DEG_PER_HOUR : ℝ := 13.176358 / 24

def MOON_ANOMALY_DEG_PER_HOUR : ℝ := 0.549

def NODE_REGRESSION_DEG_PER_HOUR : ℝ := -(360 / (18.613 * 365.2422 * 24))

/-! ## Scalar helpers (`clamp`, `normalize180`, `normalize360`) -/

/-- Source `clamp(value, min, max) = Math.max(min, Math.min(max, value))`. -/
def clamp (value lo hi : ℝ) : ℝ := max lo (min hi value)

/-- Truncation toward zero, the rounding used by the JavaScript `%` operator. -/
def jsTrunc (r : ℝ) : ℤ := if 0 ≤ r then ⌊r⌋ else ⌈r⌉

/-- JavaScript remainder `x % y` (sign follows the dividend). -/
def jsMod (x y : ℝ) : ℝ := x - y * (jsTrunc (x / y) : ℝ)

/-- Source `normalize180`: reduce an angle into `[-180, 180]` using `%` and
two conditional adjustments. -/
def normalize180 (angle : ℝ) : ℝ :=
  let value := jsMod angle 360
  let value := if value > 180 then value - 360 else value
  if value < -180 then value + 360 else value

/-- Source `normalize360`: reduce an angle into `[0, 360)` using `%` and one
conditional adjustment. -/
def normalize360 (angle : ℝ) : ℝ :=
  let value := jsMod angle 360
  if value < 0 then value + 360 else value

/-! ## Vector/matrix kernel -/

structure Vec3 where
  x : ℝ
  y : ℝ
  z : ℝ

def addVector (a b : Vec3) : Vec3 := ⟨a.x + b.x, a.y + b.y, a.z + b.z⟩

def scaleVector (v : Vec3) (scalar : ℝ) : Vec3 := ⟨v.x * scalar, v.y * scalar, v.z * scalar⟩

def dotVector (a b : Vec3) : ℝ := a.x * b.x + a.y * b.y + a.z * b.z

def crossVector (a b : Vec3) : Vec3 :=
  ⟨a.y * b.z - a.z * b.y, a.z * b.x - a.x * b.z, a.x * b.y - a.y * b.x⟩

def magnitudeVector (v : Vec3) : ℝ := Real.sqrt (dotVector v v)

/-- Source `normalizeVector`: returns the fixed unit vector `{1,0,0}` when the
magnitude is below `1e-12`. -/
def normalizeVector (v : Vec3) : Vec3 :=
  let norm := magnitudeVector v
  if norm < 1e-12 then ⟨1, 0, 0⟩ else scaleVector v (1 / norm)

/-- A 3x3 matrix, stored row-major as in the source's nested array literals. -/
structure Matrix3 where
  m00 : ℝ
  m01 : ℝ
  m02 : ℝ
  m10 : ℝ
  m11 : ℝ
  m12 : ℝ
  m20 : ℝ
  m21 : ℝ
  m22 : ℝ

def rotationMatrixX (angleDeg : ℝ) : Matrix3 :=
  let angle := angleDeg * DEG
  let c := Real.cos angle
  let s := Real.sin angle
  ⟨1, 0, 0,
   0, c, -s,
   0, s, c⟩

def rotationMatrixZ (angleDeg : ℝ) : Matrix3 :=
  let angle := angleDeg * DEG
  let c := Real.cos angle
  let s := Real.sin angle
  ⟨c, -s, 0,
   s, c, 0,
   0, 0, 1⟩

def applyMatrix3 (m : Matrix3) (v : Vec3) : Vec3 :=
  ⟨m.m00 * v.x + m.m01 * v.y + m.m02 * v.z,
   m.m10 * v.x + m.m11 * v.y + m.m12 * v.z,
   m.m20 * v.x + m.m21 * v.y + m.m22 * v.z⟩

def sphericalToCartesian (distance lonDeg latDeg : ℝ) : Vec3 :=
  let lon := lonDeg * DEG
  let lat := latDeg * DEG
  let cosLat := Real.cos lat
  ⟨distance * cosLat * Real.cos lon, distance * cosLat * Real.sin lon, distance * Real.sin lat⟩

/-- Two-argument arctangent, the standard semantics of `Math.atan2(y, x)`. -/
def atan2 (y x : ℝ) : ℝ :=
  if 0 < x then Real.arctan (y / x)
  else if x < 0 then
    (if 0 ≤ y then Real.arctan (y / x) + Real.pi else Real.arctan (y / x) - Real.pi)
  else if 0 < y then Real.pi / 2
  else if y < 0 then -(Real.pi / 2)
  else 0

structure GeoCoord where
  latDeg : ℝ
  lonDeg : ℝ

def vectorToLatLon (v : Vec3) : GeoCoord :=
  let norm := magnitudeVector v
  ⟨Real.arcsin (clamp (v.z / norm) (-1) 1) * RAD, normalize180 (atan2 v.y v.x * RAD)⟩

def vectorToEarthLatLon (v : Vec3) (gmstDeg : ℝ) : GeoCoord :=
  let norm := magnitudeVector v
  let dec := Real.arcsin (clamp (v.z / norm) (-1) 1) * RAD
  let ra := normalize360 (atan2 v.y v.x * RAD)
  ⟨dec, normalize180 (ra - gmstDeg)⟩

def angularSeparationFromVectors (a b : Vec3) : ℝ :=
  let aNorm := normalizeVector a
  let bNorm := normalizeVector b
  let cosSeparation := clamp (dotVector aNorm bNorm) (-1) 1
  Real.arccos cosSeparation * RAD

/-- Source `lineSphereIntersection`: nearest strictly-positive-parameter
intersection of the line `origin + t * direction` with the sphere of radius
`radiusKm`, or `none`.  The source filters the two quadratic roots for
positivity and takes `Math.min` of the survivors. -/
def lineSphereIntersection (origin direction : Vec3) (radiusKm : ℝ) : Option Vec3 :=
  let b := 2 * dotVector origin direction
  let c := dotVector origin origin - radiusKm * radiusKm
  let discriminant := b * b - 4 * c
  if discriminant < 0 then none
  else
    let sqrtDisc := Real.sqrt discriminant
    let t1 := (-b - sqrtDisc) / 2
    let t2 := (-b + sqrtDisc) / 2
    let candidates := [t1, t2].filter (fun value => decide (0 < value))
    match candidates with
    | [] => none
    | v :: vs => some (addVector origin (scaleVector direction (vs.foldl min v)))

def greatCircleDistanceKm (latA lonA latB lonB : ℝ) : ℝ :=
  let lat1 := latA * DEG
  let lat2 := latB * DEG
  let dLat := (latB - latA) * DEG
  let dLon := (lonB - lonA) * DEG
  let sinHalfLat := Real.sin (dLat / 2)
  let sinHalfLon := Real.sin (dLon / 2)
  let a := sinHalfLat * sinHalfLat + Real.cos lat1 * Real.cos lat2 * sinHalfLon * sinHalfLon
  let c := 2 * atan2 (Real.sqrt a) (Real.sqrt (1 - a))
  EARTH_RADIUS_KM * c

/-! ## Photometry and footprint solvers -/

/-- Source `overlapFraction`: fraction of the first (Sun) disk covered by the
second (Moon) disk at the given angular separation. -/
def overlapFraction (sunRadiusDeg moonRadiusDeg separationDeg : ℝ) : ℝ :=
  let r1 := sunRadiusDeg
  let r2 := moonRadiusDeg
  let d := separationDeg
  if d ≥ r1 + r2 then 0
  else if d ≤ |r1 - r2| then
    (if r2 ≥ r1 then 1 else clamp ((r2 * r2) / (r1 * r1)) 0 1)
  else
    let r1Sq := r1 * r1
    let r2Sq := r2 * r2
    let alpha := 2 * Real.arccos (clamp ((d * d + r1Sq - r2Sq) / (2 * d * r1)) (-1) 1)
    let beta := 2 * Real.arccos (clamp ((d * d + r2Sq - r1Sq) / (2 * d * r2)) (-1) 1)
    let area := 0.5 * r1Sq * (alpha - Real.sin alpha) + 0.5 * r2Sq * (beta - Real.sin beta)
    clamp (area / (Real.pi * r1Sq)) 0 1

/-- Source `solveFootprintRadiusDeg`: invert the parallax relation
`sin(radius) = sin(targetOffset) / sin(parallax)`, clamping to `89.5` when the
ratio reaches `1` and degrading to `0` for degenerate inputs. -/
def solveFootprintRadiusDeg (parallaxDeg targetOffsetDeg : ℝ) : ℝ :=
  if parallaxDeg ≤ 0 ∨ targetOffsetDeg ≤ 0 then 0
  else
    let numerator := Real.sin (targetOffsetDeg * DEG)
    let denominator := Real.sin (parallaxDeg * DEG)
    if denominator ≤ 0 then 0
    else
      let ratio := numerator / denominator
      if ratio ≥ 1 then 89.5
      else Real.arcsin (clamp ratio (-1) 1) * RAD

/-- Source `classifyEclipse` (the strings are the source's literals). -/
def classifyEclipse (bestSeparationDeg sunRadiusDeg moonRadiusDeg depth : ℝ)
    (axisHitsEarth : Bool) : String :=
  if depth ≤ 0.0005 then "Нет солнечного затмения"
  else
    let radiusDiff := |moonRadiusDeg - sunRadiusDeg|
    if axisHitsEarth = true ∧ bestSeparationDeg ≤ radiusDiff then
      (if moonRadiusDeg ≥ sunRadiusDeg then "Полное солнечное затмение"
       else "Кольцеобразное солнечное затмение")
    else if bestSeparationDeg < sunRadiusDeg + moonRadiusDeg then
      "Частное солнечное затмение"
    else "Нет солнечного затмения"

/-! ## Ephemeris model -/

def julianCenturies (julianDay : ℝ) : ℝ := (julianDay - 2451545.0) / 36525

/-- Milliseconds since the Unix epoch to a Julian day number
(source `toJulianDate`, with `Date.getTime()` modelled as a real). -/
def toJulianDate (dateMs : ℝ) : ℝ := dateMs / 86400000 + 2440587.5

def greenwichSiderealDeg (julianDay : ℝ) : ℝ :=
  let t := julianCenturies julianDay
  let theta := 280.46061837 + 360.98564736629 * (julianDay - 2451545.0) +
    0.000387933 * t * t - t * t * t / 38710000
  normalize360 theta

structure SunCoords where
  lonDeg : ℝ
  distanceAu : ℝ
  meanAnomalyDeg : ℝ

/-- The `meanAnomalyDeg` binding of the source's `sunEclipticCoordinates`. -/
def sunMeanAnomalyDeg (t : ℝ) : ℝ :=
  normalize360 (357.52911 + 35999.05029 * t - 0.0001537 * t * t + t * t * t / 24490000)

def sunEclipticCoordinates (t : ℝ) : SunCoords :=
  let l0 := normalize360 (280.46646 + 36000.76983 * t + 0.0003032 * t * t)
  let meanAnomalyDeg := sunMeanAnomalyDeg t
  let meanAnomaly := meanAnomalyDeg * DEG
  let equationOfCenter :=
    (1.914602 - 0.004817 * t - 0.000014 * t * t) * Real.sin meanAnomaly +
    (0.019993 - 0.000101 * t) * Real.sin (2 * meanAnomaly) +
    0.000289 * Real.sin (3 * meanAnomaly)
  let lonDeg := normalize360 (l0 + equationOfCenter)
  let distanceAu :=
    1.00014 - 0.01671 * Real.cos meanAnomaly - 0.00014 * Real.cos (2 * meanAnomaly)
  ⟨lonDeg, distanceAu, meanAnomalyDeg⟩

def meanObliquityDeg (t : ℝ) : ℝ :=
  23.439291 - 0.0130042 * t - 0.00000016 * t * t + 0.000000504 * t * t * t

/-! ## Geometry engine

The source's `computeAstronomy` is a long chain of `let` bindings.  Each
binding is embedded as its own top-level definition (parameterised by the
Julian day `jd`, the control snapshot `c` and `rotationOffsetDeg`), and
`computeAstronomy` assembles the output record from them. -/

/-- The fields of the `controls` object that `computeAstronomy` reads. -/
structure AstroControls where
  sunEclipticLon : ℝ
  ascendingNodeLon : ℝ
  moonEclipticLon : ℝ
  moonDistanceMode : ℝ
  moonAnomaly : ℝ

structure EclipticFrame where
  sunFromEarthKm : Vec3
  moonFromEarthKm : Vec3
  earthFromSunKm : Vec3
  moonFromSunKm : Vec3
  nodeAscendingUnit : Vec3
  nodeDescendingUnit : Vec3
  moonOrbitNormalUnit : Vec3

structure TwoBodyFrame where
  sunFromEarthKm : Vec3
  moonFromEarthKm : Vec3

structure GeometryFrames where
  ecliptic : EclipticFrame
  equatorial : TwoBodyFrame
  earthFixed : TwoBodyFrame

/-- Source `buildGeometryFrames` (the options object is passed as arguments in
source order). -/
def buildGeometryFrames (correctedSunLon correctedMoonLon correctedMoonLat
    correctedNodeLon moonDistanceKm sunDistanceKm epsilonDeg gmstDeg : ℝ) :
    GeometryFrames :=
  let sunFromEarthEcliptic := sphericalToCartesian sunDistanceKm correctedSunLon 0
  let moonFromEarthEcliptic := sphericalToCartesian moonDistanceKm correctedMoonLon correctedMoonLat
  let earthFromSunEcliptic := scaleVector sunFromEarthEcliptic (-1)
  let moonFromSunEcliptic := addVector earthFromSunEcliptic moonFromEarthEcliptic
  let eclipticToEquatorialMatrix := rotationMatrixX epsilonDeg
  let equatorialToEarthFixedMatrix := rotationMatrixZ (-gmstDeg)
  let sunFromEarthEquatorial := applyMatrix3 eclipticToEquatorialMatrix sunFromEarthEcliptic
  let moonFromEarthEquatorial := applyMatrix3 eclipticToEquatorialMatrix moonFromEarthEcliptic
  let sunFromEarthFixed := applyMatrix3 equatorialToEarthFixedMatrix sunFromEarthEquatorial
  let moonFromEarthFixed := applyMatrix3 equatorialToEarthFixedMatrix moonFromEarthEquatorial
  let nodeAscendingEcliptic := sphericalToCartesian 1 correctedNodeLon 0
  let nodeDescendingEcliptic := scaleVector nodeAscendingEcliptic (-1)
  let inclination := LUNAR_INCLINATION_DEG * DEG
  let omega := correctedNodeLon * DEG
  let moonOrbitNormalEcliptic := normalizeVector
    ⟨Real.sin inclination * Real.sin omega, -Real.sin inclination * Real.cos omega,
      Real.cos inclination⟩
  { ecliptic :=
      { sunFromEarthKm := sunFromEarthEcliptic
        moonFromEarthKm := moonFromEarthEcliptic
        earthFromSunKm := earthFromSunEcliptic
        moonFromSunKm := moonFromSunEcliptic
        nodeAscendingUnit := nodeAscendingEcliptic
        nodeDescendingUnit := nodeDescendingEcliptic
        moonOrbitNormalUnit := moonOrbitNormalEcliptic }
    equatorial :=
      { sunFromEarthKm := sunFromEarthEquatorial
        moonFromEarthKm := moonFromEarthEquatorial }
    earthFixed :=
      { sunFromEarthKm := sunFromEarthFixed
        moonFromEarthKm := moonFromEarthFixed } }

structure ShadowAxis where
  hitsEarth : Bool
  latDeg : ℝ
  lonDeg : ℝ

/-- Source `shadowAxisOnEarth`: intersect the anti-solar line through the Moon
with the Earth sphere; fall back to the closest-approach projection when the
line misses. -/
def shadowAxisOnEarth (sunVector moonVector : Vec3) (gmstDeg : ℝ) : ShadowAxis :=
  let axisDirection := normalizeVector (scaleVector sunVector (-1))
  match lineSphereIntersection moonVector axisDirection EARTH_RADIUS_KM with
  | some intersection =>
    let geo := vectorToEarthLatLon intersection gmstDeg
    { hitsEarth := true, latDeg := geo.latDeg, lonDeg := geo.lonDeg }
  | none =>
    let tClosest := -dotVector moonVector axisDirection
    let closestPoint := addVector moonVector (scaleVector axisDirection tClosest)
    let norm := magnitudeVector closestPoint
    let surfacePoint :=
      if norm < 1e-9 then
        scaleVector (normalizeVector (scaleVector moonVector (-1))) EARTH_RADIUS_KM
      else scaleVector closestPoint (EARTH_RADIUS_KM / norm)
    let geo := vectorToEarthLatLon surfacePoint gmstDeg
    { hitsEarth := false, latDeg := geo.latDeg, lonDeg := geo.lonDeg }

structure SunView where
  offsetXDeg : ℝ
  offsetYDeg : ℝ
  earthAngularRadiusDeg : ℝ
  moonAngularRadiusDeg : ℝ

/-- Source `sunViewProjection`. -/
def sunViewProjection (sunVector moonVector : Vec3) : SunView :=
  let earthFromSun := normalizeVector (scaleVector sunVector (-1))
  let moonFromSun := normalizeVector (addVector moonVector (scaleVector sunVector (-1)))
  let reference : Vec3 := if |earthFromSun.z| > 0.93 then ⟨1, 0, 0⟩ else ⟨0, 0, 1⟩
  let axisX := normalizeVector (crossVector reference earthFromSun)
  let axisY := normalizeVector (crossVector earthFromSun axisX)
  let x := atan2 (dotVector moonFromSun axisX) (dotVector moonFromSun earthFromSun) * RAD
  let y := atan2 (dotVector moonFromSun axisY) (dotVector moonFromSun earthFromSun) * RAD
  let moonDistanceFromSunKm := magnitudeVector (addVector moonVector (scaleVector sunVector (-1)))
  let earthAngularRadiusDeg :=
    Real.arcsin (clamp (EARTH_RADIUS_KM / magnitudeVector sunVector) (-1) 1) * RAD
  let moonAngularRadiusDeg :=
    Real.arcsin (clamp (MOON_RADIUS_KM / moonDistanceFromSunKm) (-1) 1) * RAD
  { offsetXDeg := x, offsetYDeg := y, earthAngularRadiusDeg := earthAngularRadiusDeg,
    moonAngularRadiusDeg := moonAngularRadiusDeg }

/-! Named counterparts of `computeAstronomy`'s `let` bindings. -/

def epsilonDegOf (jd : ℝ) : ℝ := meanObliquityDeg (julianCenturies jd)

def gmstDegOf (jd rotationOffsetDeg : ℝ) : ℝ :=
  normalize360 (greenwichSiderealDeg jd + rotationOffsetDeg)

def correctedSunLonOf (c : AstroControls) : ℝ := normalize360 c.sunEclipticLon

def correctedNodeLonOf (c : AstroControls) : ℝ := normalize360 c.ascendingNodeLon

def correctedMoonLonOf (c : AstroControls) : ℝ := normalize360 c.moonEclipticLon

def correctedMoonLatOf (c : AstroControls) : ℝ :=
  clamp (LUNAR_INCLINATION_DEG *
    Real.sin (normalize180 (correctedMoonLonOf c - correctedNodeLonOf c) * DEG)) (-12) 12

def moonDistanceKmOf (c : AstroControls) : ℝ :=
  clamp (MOON_PERIGEE_KM + c.moonDistanceMode * (MOON_APOGEE_KM - MOON_PERIGEE_KM))
    MOON_PERIGEE_KM MOON_APOGEE_KM

def sunDistanceKmOf (jd : ℝ) : ℝ :=
  (sunEclipticCoordinates (julianCenturies jd)).distanceAu * AU_KM

def geometryOf (jd : ℝ) (c : AstroControls) (rotationOffsetDeg : ℝ) : GeometryFrames :=
  buildGeometryFrames (correctedSunLonOf c) (correctedMoonLonOf c) (correctedMoonLatOf c)
    (correctedNodeLonOf c) (moonDistanceKmOf c) (sunDistanceKmOf jd) (epsilonDegOf jd)
    (gmstDegOf jd rotationOffsetDeg)

def sunAngularRadiusDegOf (jd : ℝ) : ℝ :=
  Real.arcsin (clamp (SUN_RADIUS_KM / sunDistanceKmOf jd) (-1) 1) * RAD

def moonAngularRadiusDegOf (c : AstroControls) : ℝ :=
  Real.arcsin (clamp (MOON_RADIUS_KM / moonDistanceKmOf c) (-1) 1) * RAD

def moonParallaxDegOf (c : AstroControls) : ℝ :=
  Real.arcsin (clamp (EARTH_RADIUS_KM / moonDistanceKmOf c) (-1) 1) * RAD

def separationDegOf (jd : ℝ) (c : AstroControls) (rotationOffsetDeg : ℝ) : ℝ :=
  angularSeparationFromVectors (geometryOf jd c rotationOffsetDeg).equatorial.sunFromEarthKm
    (geometryOf jd c rotationOffsetDeg).equatorial.moonFromEarthKm

def bestSeparationDegOf (jd : ℝ) (c : AstroControls) (rotationOffsetDeg : ℝ) : ℝ :=
  max 0 (separationDegOf jd c rotationOffsetDeg - moonParallaxDegOf c)

def depthOf (jd : ℝ) (c : AstroControls) (rotationOffsetDeg : ℝ) : ℝ :=
  overlapFraction (sunAngularRadiusDegOf jd) (moonAngularRadiusDegOf c)
    (bestSeparationDegOf jd c rotationOffsetDeg)

def penumbraRadiusDeg0Of (jd : ℝ) (c : AstroControls) : ℝ :=
  solveFootprintRadiusDeg (moonParallaxDegOf c)
    (sunAngularRadiusDegOf jd + moonAngularRadiusDegOf c)

def coreRadiusDeg0Of (jd : ℝ) (c : AstroControls) : ℝ :=
  solveFootprintRadiusDeg (moonParallaxDegOf c)
    |sunAngularRadiusDegOf jd - moonAngularRadiusDegOf c|

def shadowAxisOf (jd : ℝ) (c : AstroControls) (rotationOffsetDeg : ℝ) : ShadowAxis :=
  shadowAxisOnEarth (geometryOf jd c rotationOffsetDeg).equatorial.sunFromEarthKm
    (geometryOf jd c rotationOffsetDeg).equatorial.moonFromEarthKm
    (gmstDegOf jd rotationOffsetDeg)

/-- The record returned by `computeAstronomy` (scalar and vector fields of the
source's return object). -/
structure Astro where
  gmstDeg : ℝ
  sunEclipticLon : ℝ
  moonEclipticLon : ℝ
  moonNodePhase : ℝ
  moonAnomaly : ℝ
  ascendingNodeLon : ℝ
  descendingNodeLon : ℝ
  moonDistanceKm : ℝ
  sunDistanceKm : ℝ
  sunToNode : ℝ
  moonToSun : ℝ
  sunAngularRadiusDeg : ℝ
  moonAngularRadiusDeg : ℝ
  moonEclipticLat : ℝ
  lunarInclinationDeg : ℝ
  earthAngularRadiusFromSunDeg : ℝ
  moonAngularRadiusFromSunDeg : ℝ
  sunViewOffsetXDeg : ℝ
  sunViewOffsetYDeg : ℝ
  separationDeg : ℝ
  bestSeparationDeg : ℝ
  depth : ℝ
  subSolarLat : ℝ
  subSolarLon : ℝ
  subLunarLat : ℝ
  subLunarLon : ℝ
  centralLat : ℝ
  centralLon : ℝ
  axisHitsEarth : Bool
  umbraRadiusDeg : ℝ
  penumbraRadiusDeg : ℝ
  geometry : GeometryFrames
  eclipseClass : String

/-- Source `computeAstronomy(julianDay, controls, rotationOffsetDeg)`.  The
post-hoc zeroing `if (depth <= 0) { penumbraRadiusDeg = 0; coreRadiusDeg = 0 }`
appears as conditionals on the two footprint fields. -/
def computeAstronomy (jd : ℝ) (c : AstroControls) (rotationOffsetDeg : ℝ) : Astro :=
  let sunView := sunViewProjection (geometryOf jd c rotationOffsetDeg).equatorial.sunFromEarthKm
    (geometryOf jd c rotationOffsetDeg).equatorial.moonFromEarthKm
  let subSolarGeo := vectorToLatLon (geometryOf jd c rotationOffsetDeg).earthFixed.sunFromEarthKm
  let subLunarGeo := vectorToLatLon (geometryOf jd c rotationOffsetDeg).earthFixed.moonFromEarthKm
  let shadowAxis := shadowAxisOf jd c rotationOffsetDeg
  let depth := depthOf jd c rotationOffsetDeg
  { gmstDeg := gmstDegOf jd rotationOffsetDeg
    sunEclipticLon := correctedSunLonOf c
    moonEclipticLon := correctedMoonLonOf c
    moonNodePhase := normalize180 (correctedMoonLonOf c - correctedNodeLonOf c)
    moonAnomaly := normalize360 c.moonAnomaly
    ascendingNodeLon := correctedNodeLonOf c
    descendingNodeLon := normalize360 (correctedNodeLonOf c + 180)
    moonDistanceKm := moonDistanceKmOf c
    sunDistanceKm := sunDistanceKmOf jd
    sunToNode := normalize180 (correctedSunLonOf c - correctedNodeLonOf c)
    moonToSun := normalize180 (correctedMoonLonOf c - correctedSunLonOf c)
    sunAngularRadiusDeg := sunAngularRadiusDegOf jd
    moonAngularRadiusDeg := moonAngularRadiusDegOf c
    moonEclipticLat := correctedMoonLatOf c
    lunarInclinationDeg := LUNAR_INCLINATION_DEG
    earthAngularRadiusFromSunDeg := sunView.earthAngularRadiusDeg
    moonAngularRadiusFromSunDeg := sunView.moonAngularRadiusDeg
    sunViewOffsetXDeg := sunView.offsetXDeg
    sunViewOffsetYDeg := sunView.offsetYDeg
    separationDeg := separationDegOf jd c rotationOffsetDeg
    bestSeparationDeg := bestSeparationDegOf jd c rotationOffsetDeg
    depth := depth
    subSolarLat := subSolarGeo.latDeg
    subSolarLon := subSolarGeo.lonDeg
    subLunarLat := subLunarGeo.latDeg
    subLunarLon := subLunarGeo.lonDeg
    centralLat := shadowAxis.latDeg
    centralLon := shadowAxis.lonDeg
    axisHitsEarth := shadowAxis.hitsEarth
    umbraRadiusDeg :=
      if shadowAxis.hitsEarth = true then
        (if depth ≤ 0 then 0 else coreRadiusDeg0Of jd c)
      else 0
    penumbraRadiusDeg := if depth ≤ 0 then 0 else penumbraRadiusDeg0Of jd c
    geometry := geometryOf jd c rotationOffsetDeg
    eclipseClass := classifyEclipse (bestSeparationDegOf jd c rotationOffsetDeg)
      (sunAngularRadiusDegOf jd) (moonAngularRadiusDegOf c) depth shadowAxis.hitsEarth }

/-! ## Parameter/state propagator -/

/-- `OrbitalParameters`: the base snapshot edited by the UI. -/
structure Params where
  ascendingNodeLon : ℝ
  sunEclipticLon : ℝ
  moonNodePhase : ℝ
  moonDistanceMode : ℝ
  moonAnomaly : ℝ
  observerLat : ℝ
  observerLon : ℝ
  observerTilt : ℝ
  earthRotation : ℝ

/-- `SimulationState`: the object returned by `deriveSimulationState`
(`{...base, simHours, date, julianDay, gmst, ...updated angles}`).
`date` is kept as milliseconds since the epoch. -/
structure SimState where
  ascendingNodeLon : ℝ
  sunEclipticLon : ℝ
  moonNodePhase : ℝ
  moonDistanceMode : ℝ
  moonAnomaly : ℝ
  observerLat : ℝ
  observerLon : ℝ
  observerTilt : ℝ
  earthRotation : ℝ
  simHours : ℝ
  dateMs : ℝ
  julianDay : ℝ
  gmst : ℝ
  descendingNodeLon : ℝ
  moonEclipticLon : ℝ

/-- Reading a `SimState` back as a base parameter object (the fields the
spread `{...base, ...}` would pick up on the next derivation). -/
def SimState.toParams (s : SimState) : Params :=
  { ascendingNodeLon := s.ascendingNodeLon
    sunEclipticLon := s.sunEclipticLon
    moonNodePhase := s.moonNodePhase
    moonDistanceMode := s.moonDistanceMode
    moonAnomaly := s.moonAnomaly
    observerLat := s.observerLat
    observerLon := s.observerLon
    observerTilt := s.observerTilt
    earthRotation := s.earthRotation }

/-- The fields of a `SimState` that `computeAstronomy` reads. -/
def SimState.toAstroControls (s : SimState) : AstroControls :=
  { sunEclipticLon := s.sunEclipticLon
    ascendingNodeLon := s.ascendingNodeLon
    moonEclipticLon := s.moonEclipticLon
    moonDistanceMode := s.moonDistanceMode
    moonAnomaly := s.moonAnomaly }

/-- Source `deriveSimulationState(base, simHours, startDate)`. -/
def deriveSimulationState (base : Params) (simHours startDateMs : ℝ) : SimState :=
  let dateMs := startDateMs + simHours * 3600000
  let julianDay := toJulianDate dateMs
  let gmst := greenwichSiderealDeg julianDay
  let earthRotation := normalize360 (base.earthRotation + simHours * EARTH_ROT_DEG_PER_HOUR)
  let sunEclipticLon := normalize360 (base.sunEclipticLon + simHours * SUN_ECLIPTIC_DEG_PER_HOUR)
  let ascendingNodeLon :=
    normalize360 (base.ascendingNodeLon + simHours * NODE_REGRESSION_DEG_PER_HOUR)
  let moonNodePhase := normalize180
    (base.moonNodePhase + simHours * (MOON_ECLIPTIC_DEG_PER_HOUR - NODE_REGRESSION_DEG_PER_HOUR))
  let moonEclipticLon := normalize360 (ascendingNodeLon + moonNodePhase)
  let moonAnomaly := normalize360 (base.moonAnomaly + simHours * MOON_ANOMALY_DEG_PER_HOUR)
  { ascendingNodeLon := ascendingNodeLon
    sunEclipticLon := sunEclipticLon
    moonNodePhase := moonNodePhase
    moonDistanceMode := base.moonDistanceMode
    moonAnomaly := moonAnomaly
    observerLat := base.observerLat
    observerLon := base.observerLon
    observerTilt := base.observerTilt
    earthRotation := earthRotation
    simHours := simHours
    dateMs := dateMs
    julianDay := julianDay
    gmst := gmst
    descendingNodeLon := normalize360 (ascendingNodeLon + 180)
    moonEclipticLon := moonEclipticLon }

/-! ## Ground-track sampler -/

structure TrackPoint where
  lon : ℝ
  lat : ℝ

/-- The sample offsets of `for (let hour = -6; hour <= 6.001; hour += 0.5)`:
25 values `-6, -5.5, ..., 6`. -/
def groundTrackOffsets : List ℝ := (List.range 25).map (fun k => -6 + (k : ℝ) * 0.5)

/-- The `sampleControls` object built inside `buildGroundTrack` for one offset. -/
def sampleControlsAt (controls : SimState) (hour : ℝ) : AstroControls :=
  let sunEclipticLon := normalize360 (controls.sunEclipticLon + hour * SUN_ECLIPTIC_DEG_PER_HOUR)
  let ascendingNodeLon :=
    normalize360 (controls.ascendingNodeLon + hour * NODE_REGRESSION_DEG_PER_HOUR)
  let moonNodePhase := normalize180
    (controls.moonNodePhase + hour * (MOON_ECLIPTIC_DEG_PER_HOUR - NODE_REGRESSION_DEG_PER_HOUR))
  let moonAnomaly := normalize360 (controls.moonAnomaly + hour * MOON_ANOMALY_DEG_PER_HOUR)
  { sunEclipticLon := sunEclipticLon
    ascendingNodeLon := ascendingNodeLon
    moonEclipticLon := normalize360 (ascendingNodeLon + moonNodePhase)
    moonDistanceMode := controls.moonDistanceMode
    moonAnomaly := moonAnomaly }

/-- Source `buildGroundTrack(julianDay, controls, rotationOffsetDeg)`. -/
def buildGroundTrack (julianDay : ℝ) (controls : SimState) (rotationOffsetDeg : ℝ) :
    List TrackPoint :=
  groundTrackOffsets.filterMap (fun hour =>
    let sample := computeAstronomy (julianDay + hour / 24) (sampleControlsAt controls hour)
      rotationOffsetDeg
    if sample.depth > 0.001 then some ⟨sample.centralLon, sample.centralLat⟩ else none)

/-! ## Derived model -/

/-- The `EclipseModel` returned by `deriveModel`.  The source flattens
`{...state, ...astro, track, observerToShadowKm, shadowRadiusDeg}`; here the
state and astronomy parts are kept as named sub-records (the astronomy fields
shadow the state fields of the same name in the source spread). -/
structure EclipseModel where
  state : SimState
  astro : Astro
  track : List TrackPoint
  observerToShadowKm : ℝ
  shadowRadiusDeg : ℝ

/-- Source `deriveModel(state)`. -/
def deriveModel (state : SimState) : EclipseModel :=
  let rotationOffsetDeg := normalize180 (state.earthRotation - state.gmst)
  let astro := computeAstronomy state.julianDay state.toAstroControls rotationOffsetDeg
  let track := buildGroundTrack state.julianDay state rotationOffsetDeg
  let observerToShadowKm := greatCircleDistanceKm state.observerLat state.observerLon
    astro.centralLat astro.centralLon
  { state := state
    astro := astro
    track := track
    observerToShadowKm := observerToShadowKm
    shadowRadiusDeg := astro.penumbraRadiusDeg }

/-! ## Next-local-eclipse search -/

/-- Propagate to `t` simulated hours and run the geometry engine, exactly the
three statements repeated throughout `findNextLocalEclipse`. -/
def astroAtHours (base : Params) (startDateMs t : ℝ) : Astro :=
  let state := deriveSimulationState base t startDateMs
  let rotationOffsetDeg := normalize180 (state.earthRotation - state.gmst)
  computeAstronomy state.julianDay state.toAstroControls rotationOffsetDeg

/-- The fixed 3-step Newton-style refinement loop `for (let j = 0; j < 3; j++)`
(counted down by the first argument). -/
def refineNewMoon (base : Params) (startDateMs : ℝ) : ℕ → ℝ → ℝ
  | 0, t => t
  | n + 1, t =>
    let astro := astroAtHours base startDateMs t
    refineNewMoon base startDateMs n
      (t - astro.moonToSun / (MOON_ECLIPTIC_DEG_PER_HOUR - SUN_ECLIPTIC_DEG_PER_HOUR))

/-- The sample offsets of `for (let hour = -6; hour <= 6; hour += 0.1)`:
121 values `-6, -5.9, ..., 6`. -/
def scanOffsets : List ℝ := (List.range 121).map (fun k => -6 + (k : ℝ) * 0.1)

/-- The inner visibility scan of `findNextLocalEclipse`: the accumulator holds
`(minDistance, bestT)` with `minDistance = none` standing for the initial
`Infinity` (so the `found` flag is `minDistance.isSome`). -/
def scanWindow (base : Params) (startDateMs t : ℝ) : Option ℝ :=
  let result := scanOffsets.foldl
    (fun acc hour =>
      let scanT := t + hour
      let scanState := deriveSimulationState base scanT startDateMs
      let scanRotationOffsetDeg := normalize180 (scanState.earthRotation - scanState.gmst)
      let scanAstro := computeAstronomy scanState.julianDay scanState.toAstroControls
        scanRotationOffsetDeg
      let observerToShadowKm := greatCircleDistanceKm scanState.observerLat scanState.observerLon
        scanAstro.centralLat scanAstro.centralLon
      let penumbraRadiusKm := 6371.0 * max 0 scanAstro.penumbraRadiusDeg * DEG
      if observerToShadowKm ≤ penumbraRadiusKm + 25 then
        match acc with
        | (some minDistance, bestT) =>
          if observerToShadowKm < minDistance then (some observerToShadowKm, scanT)
          else (some minDistance, bestT)
        | (none, _) => (some observerToShadowKm, scanT)
      else acc)
    ((none : Option ℝ), t)
  match result with
  | (some _, bestT) => some bestT
  | (none, _) => none

/-- The outer loop of `findNextLocalEclipse`, with the remaining iteration
count (`10000 - i`) as explicit fuel; running out of fuel is the source's
loop exhaustion and returns `null`. -/
def findNextAux (base : Params) (startDateMs : ℝ) : ℕ → ℝ → Option ℝ
  | 0, _ => none
  | fuel + 1, t =>
    let astro := astroAtHours base startDateMs t
    let phase0 := astro.moonToSun
    let phase := if phase0 < 0 then phase0 + 360 else phase0
    let hoursToNewMoon := (360 - phase) / (MOON_ECLIPTIC_DEG_PER_HOUR - SUN_ECLIPTIC_DEG_PER_HOUR)
    let tNewMoon := refineNewMoon base startDateMs 3 (t + hoursToNewMoon)
    let astroRefined := astroAtHours base startDateMs tNewMoon
    if astroRefined.depth > 0 then
      match scanWindow base startDateMs tNewMoon with
      | some bestT => some bestT
      | none => findNextAux base startDateMs fuel (tNewMoon + 24)
    else findNextAux base startDateMs fuel (tNewMoon + 24)

/-- Source `findNextLocalEclipse(base, currentSimHours, startDate)`. -/
def findNextLocalEclipse (base : Params) (currentSimHours startDateMs : ℝ) : Option ℝ :=
  findNextAux base startDateMs 10000 (currentSimHours + 24)

end

/-! ## Range lemmas for the angle normalizers -/

open Real

theorem jsTrunc_nonneg_eq_floor {r : ℝ} (h : 0 ≤ r) : jsTrunc r = ⌊r⌋ := by
  simp [jsTrunc, h]

theorem jsTrunc_neg_eq_ceil {r : ℝ} (h : ¬ 0 ≤ r) : jsTrunc r = ⌈r⌉ := by
  simp [jsTrunc, h]

theorem jsMod_bounds (x : ℝ) : -360 < jsMod x 360 ∧ jsMod x 360 < 360 := by
  unfold jsMod
  by_cases h : 0 ≤ x / 360
  · rw [jsTrunc_nonneg_eq_floor h]
    have h1 : (⌊x / 360⌋ : ℝ) ≤ x / 360 := Int.floor_le _
    have h2 : x / 360 < ⌊x / 360⌋ + 1 := Int.lt_floor_add_one _
    constructor <;> nlinarith
  · rw [jsTrunc_neg_eq_ceil h]
    have h1 : x / 360 ≤ (⌈x / 360⌉ : ℝ) := Int.le_ceil _
    have h2 : (⌈x / 360⌉ : ℝ) - 1 < x / 360 := by
      have := Int.ceil_lt_add_one (x / 360)
      linarith
    constructor <;> nlinarith

theorem jsMod_nonneg_of_nonneg {x : ℝ} (h : 0 ≤ x) : 0 ≤ jsMod x 360 := by
  unfold jsMod
  have h' : 0 ≤ x / 360 := by positivity
  rw [jsTrunc_nonneg_eq_floor h']
  have h1 : (⌊x / 360⌋ : ℝ) ≤ x / 360 := Int.floor_le _
  nlinarith

theorem jsMod_nonpos_of_neg {x : ℝ} (h : ¬ 0 ≤ x) : jsMod x 360 ≤ 0 := by
  unfold jsMod
  have h' : ¬ 0 ≤ x / 360 := by
    intro hc
    exact h (by nlinarith)
  rw [jsTrunc_neg_eq_ceil h']
  have h1 : x / 360 ≤ (⌈x / 360⌉ : ℝ) := Int.le_ceil _
  nlinarith

theorem jsMod_sub_int (x : ℝ) : ∃ k : ℤ, jsMod x 360 = x + 360 * k := by
  exact ⟨-jsTrunc (x / 360), by push_cast [jsMod]; ring⟩

theorem normalize360_mem (x : ℝ) : 0 ≤ normalize360 x ∧ normalize360 x < 360 := by
  unfold normalize360
  obtain ⟨hlo, hhi⟩ := jsMod_bounds x
  by_cases h : jsMod x 360 < 0 <;> simp only [h, if_true, if_false, reduceIte] <;>
    constructor <;> linarith

theorem normalize360_nonneg (x : ℝ) : 0 ≤ normalize360 x := (normalize360_mem x).1

theorem normalize360_lt (x : ℝ) : normalize360 x < 360 := (normalize360_mem x).2

theorem normalize360_sub_int (x : ℝ) : ∃ k : ℤ, normalize360 x = x + 360 * k := by
  unfold normalize360
  obtain ⟨k, hk⟩ := jsMod_sub_int x
  by_cases h : jsMod x 360 < 0
  · exact ⟨k + 1, by simp only [h, if_true, reduceIte]; push_cast; linarith⟩
  · exact ⟨k, by simp only [h, if_false, reduceIte]; linarith⟩

theorem normalize180_mem (x : ℝ) : -180 ≤ normalize180 x ∧ normalize180 x ≤ 180 := by
  unfold normalize180
  obtain ⟨hlo, hhi⟩ := jsMod_bounds x
  by_cases h1 : jsMod x 360 > 180
  · have h2 : ¬ (jsMod x 360 - 360 < -180) := by linarith
    simp only [h1, h2, if_true, if_false, reduceIte]
    constructor <;> linarith
  · by_cases h2 : jsMod x 360 < -180
    · simp only [h1, h2, if_true, if_false, reduceIte]
      constructor <;> linarith
    · simp only [h1, h2, if_false, reduceIte]
      constructor <;> linarith

theorem normalize180_sub_int (x : ℝ) : ∃ k : ℤ, normalize180 x = x + 360 * k := by
  unfold normalize180
  obtain ⟨k, hk⟩ := jsMod_sub_int x
  by_cases h1 : jsMod x 360 > 180
  · have h2 : ¬ (jsMod x 360 - 360 < -180) := by
      have := (jsMod_bounds x).1
      linarith
    refine ⟨k - 1, ?_⟩
    simp only [h1, h2, if_true, if_false, reduceIte]
    push_cast
    linarith
  · by_cases h2 : jsMod x 360 < -180
    · refine ⟨k + 1, ?_⟩
      simp only [h1, h2, if_true, if_false, reduceIte]
      push_cast
      linarith
    · exact ⟨k, by simp only [h1, h2, if_false, reduceIte]; linarith⟩

theorem normalize360_eq_of_mem {x : ℝ} (h0 : 0 ≤ x) (h1 : x < 360) : normalize360 x = x := by
  unfold normalize360 jsMod
  have hdiv0 : 0 ≤ x / 360 := by positivity
  have hdiv1 : x / 360 < 1 := by
    rw [div_lt_one (by norm_num : (0:ℝ) < 360)]
    exact h1
  rw [jsTrunc_nonneg_eq_floor hdiv0]
  have : ⌊x / 360⌋ = 0 := Int.floor_eq_zero_iff.2 ⟨hdiv0, hdiv1⟩
  rw [this]
  push_cast
  simp only [mul_zero, sub_zero]
  have : ¬ x < 0 := not_lt.2 h0
  simp [this]

theorem normalize360_add_int (x : ℝ) (k : ℤ) :
    normalize360 (x + 360 * k) = normalize360 x := by
  obtain ⟨m, hm⟩ := normalize360_sub_int (x + 360 * k)
  obtain ⟨n, hn⟩ := normalize360_sub_int x
  obtain ⟨h0, h1⟩ := normalize360_mem (x + 360 * k)
  obtain ⟨h0', h1'⟩ := normalize360_mem x
  have hdiff : normalize360 (x + 360 * k) - normalize360 x = 360 * ((k + m - n : ℤ) : ℝ) := by
    push_cast
    linarith
  have habs : |normalize360 (x + 360 * k) - normalize360 x| < 360 := by
    rw [abs_lt]
    constructor <;> linarith
  rw [hdiff] at habs
  have : |((k + m - n : ℤ) : ℝ)| < 1 := by
    rw [abs_mul, abs_of_pos (by norm_num : (0:ℝ) < 360)] at habs
    linarith
  have hz : (k + m - n : ℤ) = 0 := by
    by_contra hne
    have : (1 : ℝ) ≤ |((k + m - n : ℤ) : ℝ)| := by
      rw [← Int.cast_abs]
      exact_mod_cast Int.one_le_abs (by omega)
    linarith
  have : normalize360 (x + 360 * k) - normalize360 x = 0 := by
    rw [hdiff, hz]
    norm_num
  linarith

theorem normalize360_idem (x : ℝ) : normalize360 (normalize360 x) = normalize360 x :=
  normalize360_eq_of_mem (normalize360_nonneg x) (normalize360_lt x)

/-! ## Basic facts about `clamp` -/

theorem clamp_le {v lo hi : ℝ} (h : lo ≤ hi) : clamp v lo hi ≤ hi := by
  unfold clamp
  exact max_le h (min_le_left _ _)

theorem le_clamp (v lo hi : ℝ) : lo ≤ clamp v lo hi := le_max_left _ _

theorem clamp_eq_of_mem {v lo hi : ℝ} (h1 : lo ≤ v) (h2 : v ≤ hi) : clamp v lo hi = v := by
  unfold clamp
  rw [min_eq_right h2, max_eq_right h1]

/-! ## Projection lemmas for `computeAstronomy` -/

theorem computeAstronomy_depth (jd ro : ℝ) (c : AstroControls) :
    (computeAstronomy jd c ro).depth = depthOf jd c ro := rfl

theorem computeAstronomy_penumbra (jd ro : ℝ) (c : AstroControls) :
    (computeAstronomy jd c ro).penumbraRadiusDeg =
      (if depthOf jd c ro ≤ 0 then 0 else penumbraRadiusDeg0Of jd c) := rfl

theorem computeAstronomy_umbra (jd ro : ℝ) (c : AstroControls) :
    (computeAstronomy jd c ro).umbraRadiusDeg =
      (if (shadowAxisOf jd c ro).hitsEarth = true then
        (if depthOf jd c ro ≤ 0 then 0 else coreRadiusDeg0Of jd c)
      else 0) := rfl

theorem computeAstronomy_axisHitsEarth (jd ro : ℝ) (c : AstroControls) :
    (computeAstronomy jd c ro).axisHitsEarth = (shadowAxisOf jd c ro).hitsEarth := rfl

theorem computeAstronomy_sunAngularRadiusDeg (jd ro : ℝ) (c : AstroControls) :
    (computeAstronomy jd c ro).sunAngularRadiusDeg = sunAngularRadiusDegOf jd := rfl

theorem computeAstronomy_moonAngularRadiusDeg (jd ro : ℝ) (c : AstroControls) :
    (computeAstronomy jd c ro).moonAngularRadiusDeg = moonAngularRadiusDegOf c := rfl

theorem computeAstronomy_bestSeparationDeg (jd ro : ℝ) (c : AstroControls) :
    (computeAstronomy jd c ro).bestSeparationDeg = bestSeparationDegOf jd c ro := rfl

theorem computeAstronomy_eclipseClass (jd ro : ℝ) (c : AstroControls) :
    (computeAstronomy jd c ro).eclipseClass =
      classifyEclipse (bestSeparationDegOf jd c ro) (sunAngularRadiusDegOf jd)
        (moonAngularRadiusDegOf c) (depthOf jd c ro) (shadowAxisOf jd c ro).hitsEarth := rfl

theorem computeAstronomy_centralLon (jd ro : ℝ) (c : AstroControls) :
    (computeAstronomy jd c ro).centralLon = (shadowAxisOf jd c ro).lonDeg := rfl

theorem computeAstronomy_centralLat (jd ro : ℝ) (c : AstroControls) :
    (computeAstronomy jd c ro).centralLat = (shadowAxisOf jd c ro).latDeg := rfl

theorem computeAstronomy_moonToSun (jd ro : ℝ) (c : AstroControls) :
    (computeAstronomy jd c ro).moonToSun =
      normalize180 (correctedMoonLonOf c - correctedSunLonOf c) := rfl

theorem computeAstronomy_moonNodePhase (jd ro : ℝ) (c : AstroControls) :
    (computeAstronomy jd c ro).moonNodePhase =
      normalize180 (correctedMoonLonOf c - correctedNodeLonOf c) := rfl

theorem computeAstronomy_ascendingNodeLon (jd ro : ℝ) (c : AstroControls) :
    (computeAstronomy jd c ro).ascendingNodeLon = correctedNodeLonOf c := rfl

theorem computeAstronomy_sunEclipticLon (jd ro : ℝ) (c : AstroControls) :
    (computeAstronomy jd c ro).sunEclipticLon = correctedSunLonOf c := rfl

theorem computeAstronomy_moonEclipticLon (jd ro : ℝ) (c : AstroControls) :
    (computeAstronomy jd c ro).moonEclipticLon = correctedMoonLonOf c := rfl

theorem computeAstronomy_subSolarLon (jd ro : ℝ) (c : AstroControls) :
    (computeAstronomy jd c ro).subSolarLon =
      (vectorToLatLon (geometryOf jd c ro).earthFixed.sunFromEarthKm).lonDeg := rfl

theorem computeAstronomy_subLunarLon (jd ro : ℝ) (c : AstroControls) :
    (computeAstronomy jd c ro).subLunarLon =
      (vectorToLatLon (geometryOf jd c ro).earthFixed.moonFromEarthKm).lonDeg := rfl

theorem vectorToLatLon_lonDeg (v : Vec3) :
    (vectorToLatLon v).lonDeg = normalize180 (atan2 v.y v.x * RAD) := rfl

theorem vectorToEarthLatLon_lonDeg (v : Vec3) (g : ℝ) :
    (vectorToEarthLatLon v g).lonDeg =
      normalize180 (normalize360 (atan2 v.y v.x * RAD) - g) := rfl

theorem shadowAxis_lonDeg_mem (sv mv : Vec3) (g : ℝ) :
    -180 ≤ (shadowAxisOnEarth sv mv g).lonDeg ∧ (shadowAxisOnEarth sv mv g).lonDeg ≤ 180 := by
  unfold shadowAxisOnEarth
  dsimp only
  cases lineSphereIntersection mv (normalizeVector (scaleVector sv (-1))) EARTH_RADIUS_KM with
  | none =>
    dsimp only
    rw [vectorToEarthLatLon_lonDeg]
    exact normalize180_mem _
  | some p =>
    dsimp only
    rw [vectorToEarthLatLon_lonDeg]
    exact normalize180_mem _

theorem deriveSimulationState_earthRotation (base : Params) (h startMs : ℝ) :
    (deriveSimulationState base h startMs).earthRotation =
      normalize360 (base.earthRotation + h * EARTH_ROT_DEG_PER_HOUR) := rfl

theorem deriveSimulationState_sunEclipticLon (base : Params) (h startMs : ℝ) :
    (deriveSimulationState base h startMs).sunEclipticLon =
      normalize360 (base.sunEclipticLon + h * SUN_ECLIPTIC_DEG_PER_HOUR) := rfl

theorem deriveSimulationState_ascendingNodeLon (base : Params) (h startMs : ℝ) :
    (deriveSimulationState base h startMs).ascendingNodeLon =
      normalize360 (base.ascendingNodeLon + h * NODE_REGRESSION_DEG_PER_HOUR) := rfl

theorem deriveSimulationState_moonNodePhase (base : Params) (h startMs : ℝ) :
    (deriveSimulationState base h startMs).moonNodePhase =
      normalize180 (base.moonNodePhase +
        h * (MOON_ECLIPTIC_DEG_PER_HOUR - NODE_REGRESSION_DEG_PER_HOUR)) := rfl

theorem deriveSimulationState_moonAnomaly (base : Params) (h startMs : ℝ) :
    (deriveSimulationState base h startMs).moonAnomaly =
      normalize360 (base.moonAnomaly + h * MOON_ANOMALY_DEG_PER_HOUR) := rfl

theorem deriveSimulationState_moonEclipticLon (base : Params) (h startMs : ℝ) :
    (deriveSimulationState base h startMs).moonEclipticLon =
      normalize360 ((deriveSimulationState base h startMs).ascendingNodeLon +
        (deriveSimulationState base h startMs).moonNodePhase) := rfl

/-! ## Overlap-fraction range facts -/

theorem overlapFraction_mem (r1 r2 d : ℝ) :
    0 ≤ overlapFraction r1 r2 d ∧ overlapFraction r1 r2 d ≤ 1 := by
  unfold overlapFraction
  dsimp only
  split_ifs with h1 h2 h3
  · norm_num
  · norm_num
  · exact ⟨le_clamp _ _ _, clamp_le (by norm_num)⟩
  · exact ⟨le_clamp _ _ _, clamp_le (by norm_num)⟩

/-! ## Claim C5: two-circle overlap boundary values -/

/-- C5 (counterexample): at the corner case `r1 = r2 = d = 0` (non-negative
radii with `r2 ≥ r1` and `d = 0`), `overlapFraction` returns `0`, not the `1`
the claim asserts for the `r2 ≥ r1, d = 0` condition. -/
theorem claim_C5_counterexample :
    overlapFraction 0 0 0 = 0 ∧ overlapFraction 0 0 0 ≠ 1 := by
  constructor <;> · unfold overlapFraction; norm_num

/-- C5 (amended): for non-negative radii, `overlapFraction r1 r2 d` returns
exactly `0` when `d = r1 + r2`, and returns exactly `1` when `r2 ≥ r1` and
`d = 0`, provided additionally `0 < r1 + r2` (at `r1 = r2 = 0` the disjoint
branch wins and the result is `0`). -/
theorem claim_C5_overlap_boundary (r1 r2 : ℝ) (h1 : 0 ≤ r1) (h2 : 0 ≤ r2) :
    overlapFraction r1 r2 (r1 + r2) = 0 ∧
    (r1 ≤ r2 → 0 < r1 + r2 → overlapFraction r1 r2 0 = 1) := by
  constructor
  · unfold overlapFraction
    dsimp only
    rw [if_pos le_rfl]
  · intro hle hpos
    unfold overlapFraction
    dsimp only
    rw [if_neg (by simp only [ge_iff_le, not_le]; linarith),
      if_pos (abs_nonneg _), if_pos hle]

/-- C5 witness: the amended boundary values at `r1 = r2 = 1`. -/
theorem claim_C5_overlap_boundary_witness :
    overlapFraction 1 1 (1 + 1) = 0 ∧ overlapFraction 1 1 0 = 1 :=
  ⟨(claim_C5_overlap_boundary 1 1 (by norm_num) (by norm_num)).1,
   (claim_C5_overlap_boundary 1 1 (by norm_num) (by norm_num)).2 le_rfl (by norm_num)⟩

/-! ## Claim C10: totality of `overlapFraction` -/

/-- The safety property of C10, as a predicate on the three arguments. -/
def overlapTotalProp (r1 r2 d : ℝ) : Prop :=
  (|r1 - r2| < d → d < r1 + r2 →
    0 < 2 * d * r1 ∧ 0 < 2 * d * r2 ∧
    (-1 ≤ clamp ((d * d + r1 * r1 - r2 * r2) / (2 * d * r1)) (-1) 1 ∧
      clamp ((d * d + r1 * r1 - r2 * r2) / (2 * d * r1)) (-1) 1 ≤ 1) ∧
    (-1 ≤ clamp ((d * d + r2 * r2 - r1 * r1) / (2 * d * r2)) (-1) 1 ∧
      clamp ((d * d + r2 * r2 - r1 * r1) / (2 * d * r2)) (-1) 1 ≤ 1)) ∧
  0 ≤ overlapFraction r1 r2 d ∧ overlapFraction r1 r2 d ≤ 1

/-- C10: on non-negative arguments the partial-overlap branch has strictly
positive divisors `2*d*r1` and `2*d*r2`, both `acos` arguments are clamped
into `[-1, 1]`, and the result always lies in `[0, 1]`. -/
theorem claim_C10_overlap_total (r1 r2 d : ℝ)
    (h1 : 0 ≤ r1) (h2 : 0 ≤ r2) (h3 : 0 ≤ d) : overlapTotalProp r1 r2 d := by
  refine ⟨?_, overlapFraction_mem r1 r2 d⟩
  intro hlo hhi
  obtain ⟨ha, hb⟩ := abs_lt.1 hlo
  have hr1 : 0 < r1 := by linarith
  have hr2 : 0 < r2 := by linarith
  have hd : 0 < d := lt_of_le_of_lt (abs_nonneg _) hlo
  exact ⟨by positivity, by positivity,
    ⟨le_clamp _ _ _, clamp_le (by norm_num)⟩, ⟨le_clamp _ _ _, clamp_le (by norm_num)⟩⟩

/-- C10 witness: the property at the concrete partial-overlap input
`r1 = r2 = d = 1`. -/
theorem claim_C10_overlap_total_witness : overlapTotalProp 1 1 1 :=
  claim_C10_overlap_total 1 1 1 (by norm_num) (by norm_num) (by norm_num)

/-! ## Claim C7: ranges of the angle normalizers -/

/-- C7 (counterexample): `normalize180 (-180) = -180`, which is outside the
half-open interval `(-180, 180]` the claim asserts. -/
theorem claim_C7_counterexample :
    normalize180 (-180 : ℝ) = -180 ∧ ¬ (-180 < normalize180 (-180 : ℝ)) := by
  have hmod : jsMod (-180 : ℝ) 360 = -180 := by
    have hceil : ⌈(-180 : ℝ) / 360⌉ = 0 := by
      rw [Int.ceil_eq_zero_iff, Set.mem_Ioc]
      constructor <;> norm_num
    unfold jsMod jsTrunc
    rw [if_neg (by norm_num), hceil]
    norm_num
  have h : normalize180 (-180 : ℝ) = -180 := by
    unfold normalize180
    rw [hmod]
    norm_num
  exact ⟨h, by rw [h]; norm_num⟩

/-- C7 (amended): `normalize180` maps every real into the closed interval
`[-180, 180]` (the endpoint `-180` is attained, e.g. at input `-180`) and
`normalize360` maps every real into `[0, 360)`; consequently the
relative-longitude fields of the model (`centralLon`, `subSolarLon`,
`subLunarLon`, `moonToSun`, `moonNodePhase`) lie in `[-180, 180]` and the
absolute-longitude fields (`ascendingNodeLon`, `sunEclipticLon`,
`moonEclipticLon`, `earthRotation`) lie in `[0, 360)`. -/
theorem claim_C7_normalizer_ranges :
    (∀ x : ℝ, (-180 ≤ normalize180 x ∧ normalize180 x ≤ 180) ∧
      (0 ≤ normalize360 x ∧ normalize360 x < 360)) ∧
    (∀ (jd ro : ℝ) (c : AstroControls),
      (-180 ≤ (computeAstronomy jd c ro).centralLon ∧
        (computeAstronomy jd c ro).centralLon ≤ 180) ∧
      (-180 ≤ (computeAstronomy jd c ro).subSolarLon ∧
        (computeAstronomy jd c ro).subSolarLon ≤ 180) ∧
      (-180 ≤ (computeAstronomy jd c ro).subLunarLon ∧
        (computeAstronomy jd c ro).subLunarLon ≤ 180) ∧
      (-180 ≤ (computeAstronomy jd c ro).moonToSun ∧
        (computeAstronomy jd c ro).moonToSun ≤ 180) ∧
      (-180 ≤ (computeAstronomy jd c ro).moonNodePhase ∧
        (computeAstronomy jd c ro).moonNodePhase ≤ 180) ∧
      (0 ≤ (computeAstronomy jd c ro).ascendingNodeLon ∧
        (computeAstronomy jd c ro).ascendingNodeLon < 360) ∧
      (0 ≤ (computeAstronomy jd c ro).sunEclipticLon ∧
        (computeAstronomy jd c ro).sunEclipticLon < 360) ∧
      (0 ≤ (computeAstronomy jd c ro).moonEclipticLon ∧
        (computeAstronomy jd c ro).moonEclipticLon < 360)) ∧
    (∀ (base : Params) (h startMs : ℝ),
      (0 ≤ (deriveSimulationState base h startMs).earthRotation ∧
        (deriveSimulationState base h startMs).earthRotation < 360) ∧
      (0 ≤ (deriveSimulationState base h startMs).sunEclipticLon ∧
        (deriveSimulationState base h startMs).sunEclipticLon < 360) ∧
      (0 ≤ (deriveSimulationState base h startMs).ascendingNodeLon ∧
        (deriveSimulationState base h startMs).ascendingNodeLon < 360) ∧
      (0 ≤ (deriveSimulationState base h startMs).moonEclipticLon ∧
        (deriveSimulationState base h startMs).moonEclipticLon < 360)) := by
  refine ⟨fun x => ⟨normalize180_mem x, normalize360_mem x⟩, fun jd ro c => ?_,
    fun base h startMs => ?_⟩
  · refine ⟨?_, ?_, ?_, ?_, ?_, ?_, ?_, ?_⟩
    · rw [computeAstronomy_centralLon]
      exact shadowAxis_lonDeg_mem _ _ _
    · rw [computeAstronomy_subSolarLon, vectorToLatLon_lonDeg]
      exact normalize180_mem _
    · rw [computeAstronomy_subLunarLon, vectorToLatLon_lonDeg]
      exact normalize180_mem _
    · rw [computeAstronomy_moonToSun]
      exact normalize180_mem _
    · rw [computeAstronomy_moonNodePhase]
      exact normalize180_mem _
    · rw [computeAstronomy_ascendingNodeLon]
      exact normalize360_mem _
    · rw [computeAstronomy_sunEclipticLon]
      exact normalize360_mem _
    · rw [computeAstronomy_moonEclipticLon]
      exact normalize360_mem _
  · rw [deriveSimulationState_earthRotation, deriveSimulationState_sunEclipticLon,
      deriveSimulationState_ascendingNodeLon, deriveSimulationState_moonEclipticLon]
    exact ⟨normalize360_mem _, normalize360_mem _, normalize360_mem _, normalize360_mem _⟩

/-! ## Claim C2: eclipse classification -/

/-- The classification decision tree, written as the specification states it:
"none" when the depth is at most 0.0005; otherwise "total" when the shadow
axis hits Earth, the best separation is at most the radius difference and the
Moon's angular radius is at least the Sun's; "annular" in the same geometric
case with the Moon's radius smaller; "partial" when the separation is below
the radius sum but the total/annular condition fails; otherwise "none". -/
noncomputable def classifyEclipseSpec (bestSeparationDeg sunRadiusDeg moonRadiusDeg depth : ℝ)
    (axisHitsEarth : Bool) : String :=
  if depth ≤ 0.0005 then "Нет солнечного затмения"
  else if axisHitsEarth = true ∧ bestSeparationDeg ≤ |moonRadiusDeg - sunRadiusDeg| ∧
      moonRadiusDeg ≥ sunRadiusDeg then "Полное солнечное затмение"
  else if axisHitsEarth = true ∧ bestSeparationDeg ≤ |moonRadiusDeg - sunRadiusDeg| ∧
      moonRadiusDeg < sunRadiusDeg then "Кольцеобразное солнечное затмение"
  else if bestSeparationDeg < sunRadiusDeg + moonRadiusDeg then "Частное солнечное затмение"
  else "Нет солнечного затмения"

theorem classifyEclipse_eq_spec (sep sunR moonR depth : ℝ) (hits : Bool) :
    classifyEclipse sep sunR moonR depth hits =
      classifyEclipseSpec sep sunR moonR depth hits := by
  unfold classifyEclipse classifyEclipseSpec
  dsimp only
  by_cases h1 : depth ≤ 0.0005
  · rw [if_pos h1, if_pos h1]
  · rw [if_neg h1, if_neg h1]
    by_cases h2 : hits = true ∧ sep ≤ |moonR - sunR|
    · rw [if_pos h2]
      by_cases h3 : moonR ≥ sunR
      · rw [if_pos h3, if_pos ⟨h2.1, h2.2, h3⟩]
      · rw [if_neg h3, if_neg (fun hc => h3 hc.2.2),
          if_pos ⟨h2.1, h2.2, lt_of_not_ge h3⟩]
    · rw [if_neg h2]
      conv_rhs => rw [if_neg
          (fun hc : hits = true ∧ sep ≤ |moonR - sunR| ∧ moonR ≥ sunR => h2 ⟨hc.1, hc.2.1⟩),
        if_neg
          (fun hc : hits = true ∧ sep ≤ |moonR - sunR| ∧ moonR < sunR => h2 ⟨hc.1, hc.2.1⟩)]

/-- C2: for every simulation state evaluated by the geometry engine, the
classification string equals the specification's decision tree applied to the
engine's best separation, angular radii, depth and axis-hit flag. -/
theorem claim_C2_classification (jd ro : ℝ) (c : AstroControls) :
    (computeAstronomy jd c ro).eclipseClass =
      classifyEclipseSpec (computeAstronomy jd c ro).bestSeparationDeg
        (computeAstronomy jd c ro).sunAngularRadiusDeg
        (computeAstronomy jd c ro).moonAngularRadiusDeg
        (computeAstronomy jd c ro).depth
        (computeAstronomy jd c ro).axisHitsEarth := by
  rw [computeAstronomy_eclipseClass, computeAstronomy_bestSeparationDeg,
    computeAstronomy_sunAngularRadiusDeg, computeAstronomy_moonAngularRadiusDeg,
    computeAstronomy_depth, computeAstronomy_axisHitsEarth]
  exact classifyEclipse_eq_spec _ _ _ _ _

/-! ## Claim C4: bounded search returns a distinguishable non-value -/

/-- C4: the search runs the outer loop with an iteration budget of exactly
10000; exhausting the budget yields `none`, which is distinct from every
simulated-hours answer and in particular from `some 0`. -/
theorem claim_C4_search_bounded (base : Params) (currentSimHours startDateMs : ℝ) :
    findNextLocalEclipse base currentSimHours startDateMs =
      findNextAux base startDateMs 10000 (currentSimHours + 24) ∧
    (∀ t : ℝ, findNextAux base startDateMs 0 t = none) ∧
    (∀ t : ℝ, findNextAux base startDateMs 0 t ≠ some 0) := by
  refine ⟨rfl, fun t => rfl, fun t => by simp [findNextAux]⟩

/-! ## Claim C3: forward/backward propagation round trip -/

theorem norm360_roundtrip (x a b : ℝ) (hab : a + b = 0) :
    ∃ k : ℤ, normalize360 (normalize360 (x + a) + b) = x + 360 * (k : ℝ) := by
  obtain ⟨k1, h1⟩ := normalize360_sub_int (x + a)
  obtain ⟨k2, h2⟩ := normalize360_sub_int (normalize360 (x + a) + b)
  refine ⟨k1 + k2, ?_⟩
  rw [h2, h1]
  push_cast
  linarith

theorem norm180_roundtrip (x a b : ℝ) (hab : a + b = 0) :
    ∃ k : ℤ, normalize180 (normalize180 (x + a) + b) = x + 360 * (k : ℝ) := by
  obtain ⟨k1, h1⟩ := normalize180_sub_int (x + a)
  obtain ⟨k2, h2⟩ := normalize180_sub_int (normalize180 (x + a) + b)
  refine ⟨k1 + k2, ?_⟩
  rw [h2, h1]
  push_cast
  linarith

/-- C3: propagating the base parameters forward by `h` hours and then
propagating the resulting state backward by `h` hours restores every angle
field (`earthRotation`, `sunEclipticLon`, `ascendingNodeLon`,
`moonNodePhase`, `moonAnomaly`) modulo 360 within `1e-6` degrees (indeed
exactly, since the rate terms cancel in exact real arithmetic). -/
theorem claim_C3_round_trip (base : Params) (h startMs : ℝ) :
    (∃ k : ℤ, |(deriveSimulationState (deriveSimulationState base h startMs).toParams
      (-h) startMs).earthRotation - base.earthRotation - 360 * (k : ℝ)| ≤ 1e-6) ∧
    (∃ k : ℤ, |(deriveSimulationState (deriveSimulationState base h startMs).toParams
      (-h) startMs).sunEclipticLon - base.sunEclipticLon - 360 * (k : ℝ)| ≤ 1e-6) ∧
    (∃ k : ℤ, |(deriveSimulationState (deriveSimulationState base h startMs).toParams
      (-h) startMs).ascendingNodeLon - base.ascendingNodeLon - 360 * (k : ℝ)| ≤ 1e-6) ∧
    (∃ k : ℤ, |(deriveSimulationState (deriveSimulationState base h startMs).toParams
      (-h) startMs).moonNodePhase - base.moonNodePhase - 360 * (k : ℝ)| ≤ 1e-6) ∧
    (∃ k : ℤ, |(deriveSimulationState (deriveSimulationState base h startMs).toParams
      (-h) startMs).moonAnomaly - base.moonAnomaly - 360 * (k : ℝ)| ≤ 1e-6) := by
  refine ⟨?_, ?_, ?_, ?_, ?_⟩
  · obtain ⟨k, hk⟩ := norm360_roundtrip base.earthRotation (h * EARTH_ROT_DEG_PER_HOUR)
      ((-h) * EARTH_ROT_DEG_PER_HOUR) (by ring)
    refine ⟨k, ?_⟩
    have he : (deriveSimulationState (deriveSimulationState base h startMs).toParams
        (-h) startMs).earthRotation =
        normalize360 (normalize360 (base.earthRotation + h * EARTH_ROT_DEG_PER_HOUR) +
          (-h) * EARTH_ROT_DEG_PER_HOUR) := rfl
    rw [he, hk]
    have : base.earthRotation + 360 * (k : ℝ) - base.earthRotation - 360 * (k : ℝ) = 0 := by ring
    rw [this]
    norm_num
  · obtain ⟨k, hk⟩ := norm360_roundtrip base.sunEclipticLon (h * SUN_ECLIPTIC_DEG_PER_HOUR)
      ((-h) * SUN_ECLIPTIC_DEG_PER_HOUR) (by ring)
    refine ⟨k, ?_⟩
    have he : (deriveSimulationState (deriveSimulationState base h startMs).toParams
        (-h) startMs).sunEclipticLon =
        normalize360 (normalize360 (base.sunEclipticLon + h * SUN_ECLIPTIC_DEG_PER_HOUR) +
          (-h) * SUN_ECLIPTIC_DEG_PER_HOUR) := rfl
    rw [he, hk]
    have : base.sunEclipticLon + 360 * (k : ℝ) - base.sunEclipticLon - 360 * (k : ℝ) = 0 := by
      ring
    rw [this]
    norm_num
  · obtain ⟨k, hk⟩ := norm360_roundtrip base.ascendingNodeLon (h * NODE_REGRESSION_DEG_PER_HOUR)
      ((-h) * NODE_REGRESSION_DEG_PER_HOUR) (by ring)
    refine ⟨k, ?_⟩
    have he : (deriveSimulationState (deriveSimulationState base h startMs).toParams
        (-h) startMs).ascendingNodeLon =
        normalize360 (normalize360 (base.ascendingNodeLon + h * NODE_REGRESSION_DEG_PER_HOUR) +
          (-h) * NODE_REGRESSION_DEG_PER_HOUR) := rfl
    rw [he, hk]
    have : base.ascendingNodeLon + 360 * (k : ℝ) - base.ascendingNodeLon - 360 * (k : ℝ) = 0 := by
      ring
    rw [this]
    norm_num
  · obtain ⟨k, hk⟩ := norm180_roundtrip base.moonNodePhase
      (h * (MOON_ECLIPTIC_DEG_PER_HOUR - NODE_REGRESSION_DEG_PER_HOUR))
      ((-h) * (MOON_ECLIPTIC_DEG_PER_HOUR - NODE_REGRESSION_DEG_PER_HOUR)) (by ring)
    refine ⟨k, ?_⟩
    have he : (deriveSimulationState (deriveSimulationState base h startMs).toParams
        (-h) startMs).moonNodePhase =
        normalize180 (normalize180 (base.moonNodePhase +
          h * (MOON_ECLIPTIC_DEG_PER_HOUR - NODE_REGRESSION_DEG_PER_HOUR)) +
          (-h) * (MOON_ECLIPTIC_DEG_PER_HOUR - NODE_REGRESSION_DEG_PER_HOUR)) := rfl
    rw [he, hk]
    have : base.moonNodePhase + 360 * (k : ℝ) - base.moonNodePhase - 360 * (k : ℝ) = 0 := by ring
    rw [this]
    norm_num
  · obtain ⟨k, hk⟩ := norm360_roundtrip base.moonAnomaly (h * MOON_ANOMALY_DEG_PER_HOUR)
      ((-h) * MOON_ANOMALY_DEG_PER_HOUR) (by ring)
    refine ⟨k, ?_⟩
    have he : (deriveSimulationState (deriveSimulationState base h startMs).toParams
        (-h) startMs).moonAnomaly =
        normalize360 (normalize360 (base.moonAnomaly + h * MOON_ANOMALY_DEG_PER_HOUR) +
          (-h) * MOON_ANOMALY_DEG_PER_HOUR) := rfl
    rw [he, hk]
    have : base.moonAnomaly + 360 * (k : ℝ) - base.moonAnomaly - 360 * (k : ℝ) = 0 := by ring
    rw [this]
    norm_num

/-! ## Positivity and bound lemmas for the angular-radius pipeline -/

theorem RAD_pos : 0 < RAD := div_pos (by norm_num) Real.pi_pos

theorem DEG_pos : 0 < DEG := div_pos Real.pi_pos (by norm_num)

theorem RAD_mul_DEG : RAD * DEG = 1 := by
  unfold RAD DEG
  field_simp

theorem pi_div_two_mul_RAD : Real.pi / 2 * RAD = 90 := by
  unfold RAD
  field_simp
  ring

theorem moonDistanceKm_mem (c : AstroControls) :
    MOON_PERIGEE_KM ≤ moonDistanceKmOf c ∧ moonDistanceKmOf c ≤ MOON_APOGEE_KM := by
  unfold moonDistanceKmOf
  exact ⟨le_clamp _ _ _, clamp_le (by unfold MOON_PERIGEE_KM MOON_APOGEE_KM; norm_num)⟩

theorem distanceAu_lb (t : ℝ) : 0.98329 ≤ (sunEclipticCoordinates t).distanceAu := by
  have h : (sunEclipticCoordinates t).distanceAu =
      1.00014 - 0.01671 * Real.cos (sunMeanAnomalyDeg t * DEG) -
        0.00014 * Real.cos (2 * (sunMeanAnomalyDeg t * DEG)) := rfl
  rw [h]
  have c1 := Real.cos_le_one (sunMeanAnomalyDeg t * DEG)
  have c2 := Real.cos_le_one (2 * (sunMeanAnomalyDeg t * DEG))
  have d1 := Real.neg_one_le_cos (sunMeanAnomalyDeg t * DEG)
  have d2 := Real.neg_one_le_cos (2 * (sunMeanAnomalyDeg t * DEG))
  nlinarith

theorem sunDistanceKm_lb (jd : ℝ) : 147097916 ≤ sunDistanceKmOf jd := by
  unfold sunDistanceKmOf AU_KM
  have h := distanceAu_lb (julianCenturies jd)
  nlinarith

/-- The ratio fed to `asin` for the Sun's angular radius, before clamping. -/
theorem sunRatio_mem (jd : ℝ) : 0 < SUN_RADIUS_KM / sunDistanceKmOf jd ∧
    SUN_RADIUS_KM / sunDistanceKmOf jd < 1 := by
  have hlb := sunDistanceKm_lb jd
  have hpos : (0 : ℝ) < sunDistanceKmOf jd := by linarith
  constructor
  · apply div_pos _ hpos
    unfold SUN_RADIUS_KM
    norm_num
  · rw [div_lt_one hpos]
    unfold SUN_RADIUS_KM
    linarith

theorem moonRatio_mem (c : AstroControls) : 0 < MOON_RADIUS_KM / moonDistanceKmOf c ∧
    MOON_RADIUS_KM / moonDistanceKmOf c < 1 := by
  obtain ⟨hlb, _⟩ := moonDistanceKm_mem c
  have hlb' : (363300 : ℝ) ≤ moonDistanceKmOf c := by
    unfold MOON_PERIGEE_KM at hlb
    linarith
  have hpos : (0 : ℝ) < moonDistanceKmOf c := by linarith
  constructor
  · apply div_pos _ hpos
    unfold MOON_RADIUS_KM
    norm_num
  · rw [div_lt_one hpos]
    unfold MOON_RADIUS_KM
    linarith

theorem parallaxRatio_mem (c : AstroControls) : 0 < EARTH_RADIUS_KM / moonDistanceKmOf c ∧
    EARTH_RADIUS_KM / moonDistanceKmOf c < 1 := by
  obtain ⟨hlb, _⟩ := moonDistanceKm_mem c
  have hlb' : (363300 : ℝ) ≤ moonDistanceKmOf c := by
    unfold MOON_PERIGEE_KM at hlb
    linarith
  have hpos : (0 : ℝ) < moonDistanceKmOf c := by linarith
  constructor
  · apply div_pos _ hpos
    unfold EARTH_RADIUS_KM
    norm_num
  · rw [div_lt_one hpos]
    unfold EARTH_RADIUS_KM
    linarith

/-- Generic fact: `asin(clamp(v, -1, 1)) * RAD` lies in `(0, 90)` whenever
`0 < v < 1`. -/
theorem asinClampRad_mem {v : ℝ} (h0 : 0 < v) (h1 : v < 1) :
    0 < Real.arcsin (clamp v (-1) 1) * RAD ∧ Real.arcsin (clamp v (-1) 1) * RAD < 90 := by
  have hc : clamp v (-1) 1 = v := clamp_eq_of_mem (by linarith) (le_of_lt h1)
  rw [hc]
  constructor
  · exact mul_pos (Real.arcsin_pos.2 h0) RAD_pos
  · calc Real.arcsin v * RAD < Real.pi / 2 * RAD :=
        mul_lt_mul_of_pos_right (Real.arcsin_lt_pi_div_two.2 h1) RAD_pos
    _ = 90 := pi_div_two_mul_RAD

theorem sunAngularRadius_mem (jd : ℝ) :
    0 < sunAngularRadiusDegOf jd ∧ sunAngularRadiusDegOf jd < 90 := by
  obtain ⟨h0, h1⟩ := sunRatio_mem jd
  exact asinClampRad_mem h0 h1

theorem moonAngularRadius_mem (c : AstroControls) :
    0 < moonAngularRadiusDegOf c ∧ moonAngularRadiusDegOf c < 90 := by
  obtain ⟨h0, h1⟩ := moonRatio_mem c
  exact asinClampRad_mem h0 h1

theorem moonParallax_mem (c : AstroControls) :
    0 < moonParallaxDegOf c ∧ moonParallaxDegOf c < 90 := by
  obtain ⟨h0, h1⟩ := parallaxRatio_mem c
  exact asinClampRad_mem h0 h1

/-- Converting a degree value built as `asin(clamp(v,-1,1)) * RAD` back to
radians recovers `asin v` when `0 < v < 1`, so its sine is exactly `v`. -/
theorem sin_of_asinClampRad_mul_DEG {v : ℝ} (h0 : 0 < v) (h1 : v < 1) :
    Real.sin (Real.arcsin (clamp v (-1) 1) * RAD * DEG) = v := by
  have hc : clamp v (-1) 1 = v := clamp_eq_of_mem (by linarith) (le_of_lt h1)
  rw [hc, mul_assoc, RAD_mul_DEG, mul_one]
  exact Real.sin_arcsin (by linarith) (le_of_lt h1)

theorem sin_parallax_rad (c : AstroControls) :
    Real.sin (moonParallaxDegOf c * DEG) = EARTH_RADIUS_KM / moonDistanceKmOf c := by
  obtain ⟨h0, h1⟩ := parallaxRatio_mem c
  exact sin_of_asinClampRad_mul_DEG h0 h1

theorem sin_parallax_pos (c : AstroControls) : 0 < Real.sin (moonParallaxDegOf c * DEG) := by
  rw [sin_parallax_rad c]
  exact (parallaxRatio_mem c).1

/-- The penumbra target offset `sunR + moonR` converted to radians lies in
`(0, π)`, so its sine is strictly positive. -/
theorem sin_penumbra_target_pos (jd : ℝ) (c : AstroControls) :
    0 < Real.sin ((sunAngularRadiusDegOf jd + moonAngularRadiusDegOf c) * DEG) := by
  obtain ⟨hs0, hs1⟩ := sunAngularRadius_mem jd
  obtain ⟨hm0, hm1⟩ := moonAngularRadius_mem c
  apply Real.sin_pos_of_pos_of_lt_pi
  · have := DEG_pos
    positivity
  · have h180 : (180 : ℝ) * DEG = Real.pi := by
      unfold DEG
      field_simp
    calc (sunAngularRadiusDegOf jd + moonAngularRadiusDegOf c) * DEG
        < 180 * DEG := by
          apply mul_lt_mul_of_pos_right _ DEG_pos
          linarith
      _ = Real.pi := h180

/-- The raw penumbra footprint radius is strictly positive for every state:
its guards never fire and its result is either `89.5` or a positive `asin`. -/
theorem penumbra0_pos (jd : ℝ) (c : AstroControls) : 0 < penumbraRadiusDeg0Of jd c := by
  unfold penumbraRadiusDeg0Of solveFootprintRadiusDeg
  obtain ⟨hp0, hp1⟩ := moonParallax_mem c
  obtain ⟨hs0, _⟩ := sunAngularRadius_mem jd
  obtain ⟨hm0, _⟩ := moonAngularRadius_mem c
  have hguard : ¬ (moonParallaxDegOf c ≤ 0 ∨
      sunAngularRadiusDegOf jd + moonAngularRadiusDegOf c ≤ 0) := by
    push_neg
    constructor <;> linarith
  rw [if_neg hguard]
  dsimp only
  have hden := sin_parallax_pos c
  rw [if_neg (by linarith)]
  have hratio : 0 < Real.sin ((sunAngularRadiusDegOf jd + moonAngularRadiusDegOf c) * DEG) /
      Real.sin (moonParallaxDegOf c * DEG) :=
    div_pos (sin_penumbra_target_pos jd c) hden
  by_cases hone : Real.sin ((sunAngularRadiusDegOf jd + moonAngularRadiusDegOf c) * DEG) /
      Real.sin (moonParallaxDegOf c * DEG) ≥ 1
  · rw [if_pos hone]
    norm_num
  · rw [if_neg hone]
    apply mul_pos _ RAD_pos
    apply Real.arcsin_pos.2
    unfold clamp
    push_neg at hone
    rw [min_eq_right (le_of_lt hone), max_eq_right (by linarith)]
    exact hratio

/-! ## Claim C1: depth range and depth-zero footprint equivalence -/

theorem deriveModel_astro (s : SimState) :
    (deriveModel s).astro =
      computeAstronomy s.julianDay s.toAstroControls
        (normalize180 (s.earthRotation - s.gmst)) := rfl

/-- C1: for every simulation state, the model's obscuration depth lies in
`[0, 1]`, and the depth is `0` exactly when both the umbra and penumbra
footprint radii are `0` (exactly, not merely within tolerance, since the
embedding works over the reals). -/
theorem claim_C1_depth_invariant (s : SimState) :
    0 ≤ (deriveModel s).astro.depth ∧ (deriveModel s).astro.depth ≤ 1 ∧
    ((deriveModel s).astro.depth = 0 ↔
      (deriveModel s).astro.umbraRadiusDeg = 0 ∧
        (deriveModel s).astro.penumbraRadiusDeg = 0) := by
  rw [deriveModel_astro]
  set jd := s.julianDay
  set c := s.toAstroControls
  set ro := normalize180 (s.earthRotation - s.gmst)
  rw [computeAstronomy_depth, computeAstronomy_umbra, computeAstronomy_penumbra]
  have hmem : 0 ≤ depthOf jd c ro ∧ depthOf jd c ro ≤ 1 := by
    unfold depthOf
    exact overlapFraction_mem _ _ _
  refine ⟨hmem.1, hmem.2, ?_, ?_⟩
  · intro hzero
    have hle : depthOf jd c ro ≤ 0 := le_of_eq hzero
    constructor
    · split_ifs with h1 h2 <;> rfl
    · rw [if_pos hle]
  · intro ⟨humb, hpen⟩
    by_cases hle : depthOf jd c ro ≤ 0
    · linarith [hmem.1]
    · rw [if_neg hle] at hpen
      exact absurd hpen (ne_of_gt (penumbra0_pos jd c))

/-! ## Claim C6: footprint radii from the parallax relation -/

/-- The footprint-radius formula exactly as the specification words it:
`radius = asin(sin(targetOffset)/sin(parallax))` in degrees, with the ratio
clamped to a radius of `89.5` degrees when it reaches `1`. -/
noncomputable def footprintRadiusSpecDeg (parallaxDeg targetOffsetDeg : ℝ) : ℝ :=
  let ratio := Real.sin (targetOffsetDeg * DEG) / Real.sin (parallaxDeg * DEG)
  if ratio ≥ 1 then 89.5 else Real.arcsin ratio * RAD

theorem solveFootprint_eq_spec (par target : ℝ) (hp0 : 0 < par)
    (ht0 : 0 ≤ target) (ht1 : target < 180)
    (hden : 0 < Real.sin (par * DEG)) :
    solveFootprintRadiusDeg par target = footprintRadiusSpecDeg par target := by
  unfold solveFootprintRadiusDeg footprintRadiusSpecDeg
  by_cases h0 : target ≤ 0
  · have hteq : target = 0 := le_antisymm h0 ht0
    rw [if_pos (Or.inr h0), hteq, zero_mul, Real.sin_zero, zero_div,
      if_neg (by norm_num), Real.arcsin_zero, zero_mul]
  · push_neg at h0
    rw [if_neg (by push_neg; exact ⟨by linarith, by linarith⟩)]
    dsimp only
    rw [if_neg (not_le.2 hden)]
    have hsin_t : 0 < Real.sin (target * DEG) := by
      apply Real.sin_pos_of_pos_of_lt_pi (mul_pos h0 DEG_pos)
      have h180 : (180 : ℝ) * DEG = Real.pi := by
        unfold DEG
        field_simp
      calc target * DEG < 180 * DEG := mul_lt_mul_of_pos_right ht1 DEG_pos
        _ = Real.pi := h180
    have hratio : 0 < Real.sin (target * DEG) / Real.sin (par * DEG) :=
      div_pos hsin_t hden
    by_cases h1 : Real.sin (target * DEG) / Real.sin (par * DEG) ≥ 1
    · rw [if_pos h1, if_pos h1]
    · rw [if_neg h1, if_neg h1]
      push_neg at h1
      rw [clamp_eq_of_mem (by linarith) (le_of_lt h1)]

/-- The C6 property for one evaluation of the geometry engine. -/
def footprintClaimProp (jd ro : ℝ) (c : AstroControls) : Prop :=
  ((computeAstronomy jd c ro).depth = 0 →
    (computeAstronomy jd c ro).penumbraRadiusDeg = 0 ∧
    (computeAstronomy jd c ro).umbraRadiusDeg = 0) ∧
  ((computeAstronomy jd c ro).depth ≠ 0 →
    (computeAstronomy jd c ro).penumbraRadiusDeg =
      footprintRadiusSpecDeg (moonParallaxDegOf c)
        ((computeAstronomy jd c ro).sunAngularRadiusDeg +
          (computeAstronomy jd c ro).moonAngularRadiusDeg) ∧
    ((computeAstronomy jd c ro).axisHitsEarth = true →
      (computeAstronomy jd c ro).umbraRadiusDeg =
        footprintRadiusSpecDeg (moonParallaxDegOf c)
          |(computeAstronomy jd c ro).sunAngularRadiusDeg -
            (computeAstronomy jd c ro).moonAngularRadiusDeg|))

/-- C6: when the Moon's horizontal parallax is positive, the penumbra radius
equals `asin(sin(sunR + moonR)/sin(parallax))` in degrees and the umbra/
antumbra core radius reported when the axis hits Earth equals
`asin(sin(|sunR - moonR|)/sin(parallax))`, with the `89.5`-degree clamp when
the sine ratio reaches `1`; when the depth is `0` both radii are forced to
`0`. -/
theorem claim_C6_footprint_radii (jd ro : ℝ) (c : AstroControls)
    (hp : 0 < moonParallaxDegOf c) : footprintClaimProp jd ro c := by
  unfold footprintClaimProp
  rw [computeAstronomy_depth, computeAstronomy_penumbra, computeAstronomy_umbra,
    computeAstronomy_axisHitsEarth, computeAstronomy_sunAngularRadiusDeg,
    computeAstronomy_moonAngularRadiusDeg]
  obtain ⟨hs0, hs1⟩ := sunAngularRadius_mem jd
  obtain ⟨hm0, hm1⟩ := moonAngularRadius_mem c
  have hdnn : 0 ≤ depthOf jd c ro := by
    unfold depthOf
    exact (overlapFraction_mem _ _ _).1
  constructor
  · intro hzero
    have hle : depthOf jd c ro ≤ 0 := le_of_eq hzero
    refine ⟨by rw [if_pos hle], ?_⟩
    split_ifs with h1 h2 <;> rfl
  · intro hne
    have hpos : 0 < depthOf jd c ro := lt_of_le_of_ne hdnn (Ne.symm hne)
    have hnle : ¬ depthOf jd c ro ≤ 0 := not_le.2 hpos
    refine ⟨?_, ?_⟩
    · rw [if_neg hnle]
      unfold penumbraRadiusDeg0Of
      exact solveFootprint_eq_spec _ _ hp (by linarith) (by linarith) (sin_parallax_pos c)
    · intro hhits
      rw [if_pos hhits, if_neg hnle]
      unfold coreRadiusDeg0Of
      apply solveFootprint_eq_spec _ _ hp (abs_nonneg _) _ (sin_parallax_pos c)
      have := abs_lt.2 (And.intro (by linarith : -(90:ℝ) <
        sunAngularRadiusDegOf jd - moonAngularRadiusDegOf c) (by linarith))
      linarith

/-- C6 witness: the collinear demonstration state. -/
def demoControls : AstroControls :=
  { sunEclipticLon := 0, ascendingNodeLon := 0, moonEclipticLon := 0,
    moonDistanceMode := 0, moonAnomaly := 0 }

theorem claim_C6_footprint_radii_witness : footprintClaimProp 2451545 0 demoControls :=
  claim_C6_footprint_radii 2451545 0 demoControls (moonParallax_mem demoControls).1

/-! ## Claim C8: line-sphere intersection -/

/-- The parameter `t` solves the line-sphere equation
`|origin + t * direction|^2 = radius^2`. -/
def isSphereRoot (origin direction : Vec3) (radiusKm t : ℝ) : Prop :=
  dotVector (addVector origin (scaleVector direction t))
    (addVector origin (scaleVector direction t)) = radiusKm * radiusKm

/-- The `b` binding of `lineSphereIntersection`. -/
noncomputable def lsB (o d : Vec3) : ℝ := 2 * dotVector o d

/-- The `c` binding of `lineSphereIntersection`. -/
noncomputable def lsC (o : Vec3) (r : ℝ) : ℝ := dotVector o o - r * r

/-- The `discriminant` binding of `lineSphereIntersection`. -/
noncomputable def lsDisc (o d : Vec3) (r : ℝ) : ℝ := lsB o d * lsB o d - 4 * lsC o r

/-- The root `t1` of `lineSphereIntersection`. -/
noncomputable def lsT1 (o d : Vec3) (r : ℝ) : ℝ := (-lsB o d - Real.sqrt (lsDisc o d r)) / 2

/-- The root `t2` of `lineSphereIntersection`. -/
noncomputable def lsT2 (o d : Vec3) (r : ℝ) : ℝ := (-lsB o d + Real.sqrt (lsDisc o d r)) / 2

theorem lineSphereIntersection_eq (o d : Vec3) (r : ℝ) :
    lineSphereIntersection o d r =
      if lsDisc o d r < 0 then none
      else
        match [lsT1 o d r, lsT2 o d r].filter (fun value => decide (0 < value)) with
        | [] => none
        | v :: vs => some (addVector o (scaleVector d (vs.foldl min v))) := rfl

theorem sphere_root_iff_quadratic (o d : Vec3) (r t : ℝ) (hd : dotVector d d = 1) :
    isSphereRoot o d r t ↔ t * t + lsB o d * t + lsC o r = 0 := by
  unfold isSphereRoot lsB lsC dotVector addVector scaleVector at *
  dsimp only at *
  constructor <;> intro h
  · linear_combination h - t * t * hd
  · linear_combination h + t * t * hd

/-- The full C8 property for one call of `lineSphereIntersection`. -/
def lineSphereSpecProp (origin direction : Vec3) (radiusKm : ℝ) : Prop :=
  (lineSphereIntersection origin direction radiusKm = none ↔
    lsDisc origin direction radiusKm < 0 ∨
      (lsT1 origin direction radiusKm ≤ 0 ∧ lsT2 origin direction radiusKm ≤ 0)) ∧
  (∀ t : ℝ, 0 < t → isSphereRoot origin direction radiusKm t →
    (∀ s : ℝ, 0 < s → isSphereRoot origin direction radiusKm s → t ≤ s) →
    lineSphereIntersection origin direction radiusKm =
      some (addVector origin (scaleVector direction t)))

/-- C8: with a unit direction and positive radius, `lineSphereIntersection`
returns the surface point at the smallest strictly positive root of the
line-sphere equation when one exists, and returns `none` exactly when the
discriminant is negative or both quadratic roots are non-positive. -/
theorem claim_C8_line_sphere (origin direction : Vec3) (radiusKm : ℝ)
    (hdir : dotVector direction direction = 1) (hr : 0 < radiusKm) :
    lineSphereSpecProp origin direction radiusKm := by
  unfold lineSphereSpecProp
  have hroot_iff : ∀ s : ℝ, isSphereRoot origin direction radiusKm s ↔
      s * s + lsB origin direction * s + lsC origin radiusKm = 0 :=
    fun s => sphere_root_iff_quadratic origin direction radiusKm s hdir
  by_cases hneg : lsDisc origin direction radiusKm < 0
  · have hres : lineSphereIntersection origin direction radiusKm = none := by
      rw [lineSphereIntersection_eq, if_pos hneg]
    have hnoroot : ∀ s : ℝ, ¬ isSphereRoot origin direction radiusKm s := by
      intro s hs
      rw [hroot_iff s] at hs
      unfold lsDisc at hneg
      nlinarith [sq_nonneg (2 * s + lsB origin direction)]
    refine ⟨iff_of_true hres (Or.inl hneg), fun t ht hroot _ => absurd hroot (hnoroot t)⟩
  · push_neg at hneg
    have hsq : Real.sqrt (lsDisc origin direction radiusKm) *
        Real.sqrt (lsDisc origin direction radiusKm) = lsDisc origin direction radiusKm :=
      Real.mul_self_sqrt hneg
    have hsqrt_nonneg : 0 ≤ Real.sqrt (lsDisc origin direction radiusKm) := Real.sqrt_nonneg _
    have ht1_le_t2 : lsT1 origin direction radiusKm ≤ lsT2 origin direction radiusKm := by
      unfold lsT1 lsT2
      linarith
    have hfact : ∀ s : ℝ, s * s + lsB origin direction * s + lsC origin radiusKm =
        (s - lsT1 origin direction radiusKm) * (s - lsT2 origin direction radiusKm) := by
      intro s
      have hdd : lsDisc origin direction radiusKm =
          lsB origin direction * lsB origin direction - 4 * lsC origin radiusKm := rfl
      unfold lsT1 lsT2
      linear_combination (hsq + hdd) / 4
    have hroots : ∀ s : ℝ, isSphereRoot origin direction radiusKm s ↔
        (s = lsT1 origin direction radiusKm ∨ s = lsT2 origin direction radiusKm) := by
      intro s
      rw [hroot_iff s, hfact s, mul_eq_zero, sub_eq_zero, sub_eq_zero]
    have ht1_root : isSphereRoot origin direction radiusKm (lsT1 origin direction radiusKm) :=
      (hroots _).2 (Or.inl rfl)
    have ht2_root : isSphereRoot origin direction radiusKm (lsT2 origin direction radiusKm) :=
      (hroots _).2 (Or.inr rfl)
    by_cases h1 : 0 < lsT1 origin direction radiusKm
    · have h2 : 0 < lsT2 origin direction radiusKm := lt_of_lt_of_le h1 ht1_le_t2
      have hres : lineSphereIntersection origin direction radiusKm =
          some (addVector origin (scaleVector direction (lsT1 origin direction radiusKm))) := by
        rw [lineSphereIntersection_eq, if_neg (not_lt.2 hneg)]
        rw [List.filter_cons, List.filter_cons, List.filter_nil]
        simp only [decide_eq_true_eq]
        rw [if_pos h1, if_pos h2]
        dsimp only [List.foldl]
        rw [min_eq_left ht1_le_t2]
      refine ⟨?_, ?_⟩
      · rw [hres]
        refine iff_of_false (by simp) ?_
        rintro (hd | ⟨ha, hb⟩)
        · exact absurd hd (not_lt.2 hneg)
        · exact absurd ha (not_le.2 h1)
      · intro t ht hroot hmin
        have := hmin _ h1 ht1_root
        rcases (hroots t).1 hroot with he | he
        · rw [hres, he]
        · have ht2le : t ≤ lsT1 origin direction radiusKm := this
          have : t = lsT1 origin direction radiusKm :=
            le_antisymm ht2le (he ▸ ht1_le_t2)
          rw [hres, this]
    · push_neg at h1
      by_cases h2 : 0 < lsT2 origin direction radiusKm
      · have hres : lineSphereIntersection origin direction radiusKm =
            some (addVector origin (scaleVector direction (lsT2 origin direction radiusKm))) := by
          rw [lineSphereIntersection_eq, if_neg (not_lt.2 hneg)]
          rw [List.filter_cons, List.filter_cons, List.filter_nil]
          simp only [decide_eq_true_eq]
          rw [if_neg (not_lt.2 h1), if_pos h2]
          dsimp only [List.foldl]
        refine ⟨?_, ?_⟩
        · rw [hres]
          refine iff_of_false (by simp) ?_
          rintro (hd | ⟨ha, hb⟩)
          · exact absurd hd (not_lt.2 hneg)
          · exact absurd hb (not_le.2 h2)
        · intro t ht hroot hmin
          rcases (hroots t).1 hroot with he | he
          · exfalso
            rw [he] at ht
            exact absurd ht (not_lt.2 h1)
          · rw [hres, he]
      · push_neg at h2
        have hres : lineSphereIntersection origin direction radiusKm = none := by
          rw [lineSphereIntersection_eq, if_neg (not_lt.2 hneg)]
          rw [List.filter_cons, List.filter_cons, List.filter_nil]
          simp only [decide_eq_true_eq]
          rw [if_neg (not_lt.2 h1), if_neg (not_lt.2 h2)]
        refine ⟨iff_of_true hres (Or.inr ⟨h1, h2⟩), ?_⟩
        intro t ht hroot _
        rcases (hroots t).1 hroot with he | he
        · exact absurd ht (by rw [he]; exact not_lt.2 h1)
        · exact absurd ht (by rw [he]; exact not_lt.2 h2)

/-- C8 witness: the ray from `(-2, 0, 0)` along `(1, 0, 0)` against the unit
sphere. -/
theorem claim_C8_line_sphere_witness : lineSphereSpecProp ⟨-2, 0, 0⟩ ⟨1, 0, 0⟩ 1 :=
  claim_C8_line_sphere ⟨-2, 0, 0⟩ ⟨1, 0, 0⟩ 1
    (by unfold dotVector; norm_num) (by norm_num)

/-! ## Concrete evaluation: the collinear demonstration state

With all control angles at `0` the Sun and Moon vectors are collinear along
the positive x-axis in every frame, the best separation is `0`, and (at
perigee) the Moon's angular radius exceeds the Sun's, so the depth is `1`. -/

theorem normalize360_zero : normalize360 (0 : ℝ) = 0 :=
  normalize360_eq_of_mem le_rfl (by norm_num)

theorem normalize180_zero : normalize180 (0 : ℝ) = 0 := by
  have hmod : jsMod (0 : ℝ) 360 = 0 := by
    unfold jsMod jsTrunc
    rw [if_pos (by norm_num)]
    norm_num
  unfold normalize180
  rw [hmod]
  norm_num

theorem demo_correctedSun : correctedSunLonOf demoControls = 0 := by
  unfold correctedSunLonOf demoControls
  exact normalize360_zero

theorem demo_correctedNode : correctedNodeLonOf demoControls = 0 := by
  unfold correctedNodeLonOf demoControls
  exact normalize360_zero

theorem demo_correctedMoon : correctedMoonLonOf demoControls = 0 := by
  unfold correctedMoonLonOf demoControls
  exact normalize360_zero

theorem demo_correctedMoonLat : correctedMoonLatOf demoControls = 0 := by
  unfold correctedMoonLatOf
  rw [demo_correctedMoon, demo_correctedNode]
  rw [sub_zero, normalize180_zero, zero_mul, Real.sin_zero, mul_zero]
  exact clamp_eq_of_mem (by norm_num) (by norm_num)

theorem demo_moonDistance : moonDistanceKmOf demoControls = 363300 := by
  unfold moonDistanceKmOf demoControls MOON_PERIGEE_KM MOON_APOGEE_KM
  dsimp only
  rw [zero_mul, add_zero]
  exact clamp_eq_of_mem le_rfl (by norm_num)

theorem sphericalToCartesian_xaxis (dist : ℝ) :
    sphericalToCartesian dist 0 0 = ⟨dist, 0, 0⟩ := by
  unfold sphericalToCartesian
  simp [Vec3.mk.injEq]

theorem rotX_xaxis (epsilonDeg d : ℝ) :
    applyMatrix3 (rotationMatrixX epsilonDeg) ⟨d, 0, 0⟩ = ⟨d, 0, 0⟩ := by
  unfold applyMatrix3 rotationMatrixX
  dsimp only
  rw [Vec3.mk.injEq]
  refine ⟨by ring, by ring, by ring⟩

theorem demo_equatorial_sun (jd ro : ℝ) :
    (geometryOf jd demoControls ro).equatorial.sunFromEarthKm =
      ⟨sunDistanceKmOf jd, 0, 0⟩ := by
  unfold geometryOf buildGeometryFrames
  dsimp only
  rw [demo_correctedSun, sphericalToCartesian_xaxis, rotX_xaxis]

theorem demo_equatorial_moon (jd ro : ℝ) :
    (geometryOf jd demoControls ro).equatorial.moonFromEarthKm = ⟨363300, 0, 0⟩ := by
  unfold geometryOf buildGeometryFrames
  dsimp only
  rw [demo_correctedMoon, demo_correctedMoonLat, demo_moonDistance,
    sphericalToCartesian_xaxis, rotX_xaxis]

theorem magnitude_xaxis {s : ℝ} (hs : 0 ≤ s) : magnitudeVector ⟨s, 0, 0⟩ = s := by
  unfold magnitudeVector dotVector
  dsimp only
  have h : s * s + 0 * 0 + 0 * 0 = s * s := by ring
  rw [h, Real.sqrt_mul_self hs]

theorem normalize_xaxis {s : ℝ} (hs : 1e-12 ≤ s) :
    normalizeVector ⟨s, 0, 0⟩ = ⟨1, 0, 0⟩ := by
  have hpos : 0 < s := lt_of_lt_of_le (by norm_num) hs
  unfold normalizeVector
  rw [magnitude_xaxis (le_of_lt hpos)]
  rw [if_neg (not_lt.2 hs)]
  unfold scaleVector
  dsimp only
  rw [Vec3.mk.injEq]
  refine ⟨?_, by ring, by ring⟩
  field_simp

theorem angSep_xaxis {s m : ℝ} (hs : 1e-12 ≤ s) (hm : 1e-12 ≤ m) :
    angularSeparationFromVectors ⟨s, 0, 0⟩ ⟨m, 0, 0⟩ = 0 := by
  unfold angularSeparationFromVectors
  rw [normalize_xaxis hs, normalize_xaxis hm]
  dsimp only
  have hdot : dotVector ⟨1, 0, 0⟩ ⟨1, 0, 0⟩ = 1 := by
    unfold dotVector
    norm_num
  rw [hdot, clamp_eq_of_mem (by norm_num) le_rfl, Real.arccos_one, zero_mul]

theorem demo_separation (jd ro : ℝ) : separationDegOf jd demoControls ro = 0 := by
  unfold separationDegOf
  rw [demo_equatorial_sun, demo_equatorial_moon]
  have hsun : (1e-12 : ℝ) ≤ sunDistanceKmOf jd := by
    have := sunDistanceKm_lb jd
    linarith
  exact angSep_xaxis hsun (by norm_num)

theorem demo_bestSeparation (jd ro : ℝ) : bestSeparationDegOf jd demoControls ro = 0 := by
  unfold bestSeparationDegOf
  rw [demo_separation]
  have := (moonParallax_mem demoControls).1
  rw [zero_sub]
  exact max_eq_left (by linarith)

theorem demo_moon_ge_sun (jd : ℝ) :
    sunAngularRadiusDegOf jd ≤ moonAngularRadiusDegOf demoControls := by
  unfold sunAngularRadiusDegOf moonAngularRadiusDegOf
  apply mul_le_mul_of_nonneg_right _ (le_of_lt RAD_pos)
  apply Real.monotone_arcsin
  obtain ⟨hs0, hs1⟩ := sunRatio_mem jd
  obtain ⟨hm0, hm1⟩ := moonRatio_mem demoControls
  rw [clamp_eq_of_mem (by linarith) (le_of_lt hs1),
    clamp_eq_of_mem (by linarith) (le_of_lt hm1)]
  rw [demo_moonDistance]
  have hlb := sunDistanceKm_lb jd
  have hpos : (0 : ℝ) < sunDistanceKmOf jd := by linarith
  rw [div_le_div_iff hpos (by norm_num : (0:ℝ) < 363300)]
  unfold SUN_RADIUS_KM MOON_RADIUS_KM
  nlinarith

theorem demo_depth (jd ro : ℝ) : depthOf jd demoControls ro = 1 := by
  unfold depthOf
  rw [demo_bestSeparation]
  obtain ⟨hs0, _⟩ := sunAngularRadius_mem jd
  obtain ⟨hm0, _⟩ := moonAngularRadius_mem demoControls
  unfold overlapFraction
  dsimp only
  rw [if_neg (by simp only [ge_iff_le, not_le]; linarith),
    if_pos (abs_nonneg _), if_pos (demo_moon_ge_sun jd)]

/-! ## Claim C9: ground-track sampler -/

theorem norm360_add_norm180 (a p : ℝ) :
    normalize360 (normalize360 a + normalize180 p) = normalize360 (a + p) := by
  obtain ⟨k1, h1⟩ := normalize360_sub_int a
  obtain ⟨k2, h2⟩ := normalize180_sub_int p
  have h : normalize360 a + normalize180 p = (a + p) + 360 * ((k1 + k2 : ℤ) : ℝ) := by
    rw [h1, h2]
    push_cast
    ring
  rw [h, normalize360_add_int]

/-- Changing the controls to ones with the same corrected angles and the same
distance mode does not change the derived depth. -/
theorem depthOf_congr (jd ro : ℝ) (c1 c2 : AstroControls)
    (h1 : correctedSunLonOf c1 = correctedSunLonOf c2)
    (h2 : correctedNodeLonOf c1 = correctedNodeLonOf c2)
    (h3 : correctedMoonLonOf c1 = correctedMoonLonOf c2)
    (h4 : c1.moonDistanceMode = c2.moonDistanceMode) :
    depthOf jd c1 ro = depthOf jd c2 ro := by
  unfold depthOf bestSeparationDegOf separationDegOf geometryOf moonAngularRadiusDegOf
    moonParallaxDegOf moonDistanceKmOf correctedMoonLatOf
  rw [h1, h2, h3, h4]

theorem sampleControlsAt_zero_sun (s : SimState) :
    correctedSunLonOf (sampleControlsAt s 0) = correctedSunLonOf s.toAstroControls := by
  unfold correctedSunLonOf sampleControlsAt SimState.toAstroControls
  dsimp only
  rw [zero_mul, add_zero, normalize360_idem]

theorem sampleControlsAt_zero_node (s : SimState) :
    correctedNodeLonOf (sampleControlsAt s 0) = correctedNodeLonOf s.toAstroControls := by
  unfold correctedNodeLonOf sampleControlsAt SimState.toAstroControls
  dsimp only
  rw [zero_mul, add_zero, normalize360_idem]

theorem sampleControlsAt_zero_moon (s : SimState)
    (hinv : s.moonEclipticLon = normalize360 (s.ascendingNodeLon + s.moonNodePhase)) :
    correctedMoonLonOf (sampleControlsAt s 0) = correctedMoonLonOf s.toAstroControls := by
  unfold correctedMoonLonOf sampleControlsAt SimState.toAstroControls
  dsimp only
  rw [zero_mul, add_zero, zero_mul, add_zero, norm360_add_norm180, hinv,
    normalize360_idem]

/-- The C9 property of one `buildGroundTrack` invocation. -/
def groundTrackClaimProp (jd ro : ℝ) (s : SimState) : Prop :=
  buildGroundTrack jd s ro ≠ [] ∧
  ∀ p ∈ buildGroundTrack jd s ro, ∃ hour ∈ groundTrackOffsets,
    0.001 < (computeAstronomy (jd + hour / 24) (sampleControlsAt s hour) ro).depth ∧
    p.lon = (computeAstronomy (jd + hour / 24) (sampleControlsAt s hour) ro).centralLon ∧
    p.lat = (computeAstronomy (jd + hour / 24) (sampleControlsAt s hour) ro).centralLat

/-- C9: the ground track samples the half-hour offsets of the ±6-hour window
and keeps exactly the samples with depth above `0.001`; when the state's
reference-instant depth exceeds `0.001` the track is non-empty, and every
returned point is the shadow centre of a sample whose independently
re-evaluated depth at its own offset exceeds `0.001`. -/
theorem claim_C9_ground_track (jd ro : ℝ) (s : SimState)
    (hinv : s.moonEclipticLon = normalize360 (s.ascendingNodeLon + s.moonNodePhase))
    (hdepth : 0.001 < (computeAstronomy jd s.toAstroControls ro).depth) :
    groundTrackClaimProp jd ro s := by
  unfold groundTrackClaimProp
  constructor
  · have hmem0 : (0 : ℝ) ∈ groundTrackOffsets := by
      have h12 : (12 : ℕ) ∈ List.range 25 := List.mem_range.2 (by norm_num)
      have hm := List.mem_map_of_mem (fun k : ℕ => -6 + (k : ℝ) * 0.5) h12
      dsimp only at hm
      rw [show -6 + ((12 : ℕ) : ℝ) * 0.5 = 0 from by norm_num] at hm
      exact hm
    have hjd : jd + (0 : ℝ) / 24 = jd := by norm_num
    have hdeq : (computeAstronomy (jd + (0 : ℝ) / 24) (sampleControlsAt s 0) ro).depth =
        (computeAstronomy jd s.toAstroControls ro).depth := by
      rw [hjd, computeAstronomy_depth, computeAstronomy_depth]
      exact depthOf_congr jd ro _ _ (sampleControlsAt_zero_sun s)
        (sampleControlsAt_zero_node s) (sampleControlsAt_zero_moon s hinv) rfl
    have hcond : (computeAstronomy (jd + (0 : ℝ) / 24) (sampleControlsAt s 0) ro).depth >
        0.001 := by
      rw [hdeq]
      exact hdepth
    apply List.ne_nil_of_mem
      (a := (⟨(computeAstronomy (jd + (0 : ℝ) / 24) (sampleControlsAt s 0) ro).centralLon,
        (computeAstronomy (jd + (0 : ℝ) / 24) (sampleControlsAt s 0) ro).centralLat⟩ :
          TrackPoint))
    unfold buildGroundTrack
    refine List.mem_filterMap.2 ⟨0, hmem0, ?_⟩
    dsimp only
    rw [if_pos hcond]
  · intro p hp
    unfold buildGroundTrack at hp
    obtain ⟨hour, hhour, hf⟩ := List.mem_filterMap.1 hp
    dsimp only at hf
    by_cases hc : (computeAstronomy (jd + hour / 24) (sampleControlsAt s hour) ro).depth > 0.001
    · rw [if_pos hc] at hf
      injection hf with hf'
      refine ⟨hour, hhour, hc, ?_, ?_⟩
      · rw [← hf']
      · rw [← hf']
    · rw [if_neg hc] at hf
      exact absurd hf (by simp)

/-- The all-zero demonstration state used as a witness. -/
def demoState : SimState :=
  { ascendingNodeLon := 0, sunEclipticLon := 0, moonNodePhase := 0, moonDistanceMode := 0,
    moonAnomaly := 0, observerLat := 0, observerLon := 0, observerTilt := 0,
    earthRotation := 0, simHours := 0, dateMs := 0, julianDay := 2451545, gmst := 0,
    descendingNodeLon := 180, moonEclipticLon := 0 }

theorem demoState_controls : demoState.toAstroControls = demoControls := rfl

/-- C9 witness: the collinear demonstration state has depth `1` at the
reference instant, so its ground track is non-empty and sound. -/
theorem claim_C9_ground_track_witness : groundTrackClaimProp 2451545 0 demoState := by
  apply claim_C9_ground_track 2451545 0 demoState
  · show (0 : ℝ) = normalize360 (0 + 0)
    rw [add_zero, normalize360_zero]
  · rw [demoState_controls, computeAstronomy_depth, demo_depth]
    norm_num
